import Mathlib

/-! REST microservice over users, tasks and categories

A shallow embedding of the route handlers of `common/microservice/src/routes`
(`tasks.js`, `users.js`, `categories.js`) together with a small model of the
relational store they talk to.

Conventions of the embedding

* JavaScript numbers that the handlers compute with are integers here; the
  quotient `total / limit` is taken in `ℚ`, so `Math.ceil` is the exact ceiling.
* A value of the query string that is used as a number (`page`, `limit`) is
  represented by the number it denotes; an absent value is `none`.
* A string-valued field that may be `undefined` is an `Option String`; the
  JavaScript truthiness test `if (x)` on such a value is `truthy x`.
-/

namespace Microservice

/-! ## Values bound to statement placeholders -/

/-- A value placed in the parameter array of a parameterised statement. -/
inductive Val where
  | str (s : String)
  | num (n : Int)
  deriving DecidableEq, Repr

/-- JavaScript truthiness of a value that is either `undefined` or a string:
`undefined` and the empty string are falsy. -/
def truthy : Option String → Bool
  | none => false
  | some s => s != ""

/-! ## Pagination envelope (all list handlers) -/

/-- The `pagination` object of a list response. -/
structure Pagination where
  page : Int
  limit : Int
  total : Int
  pages : Int
  deriving DecidableEq, Repr

/-- The offset `(page - 1) * limit`, the first statement of every list handler. -/
def offsetOf (page limit : Nat) : Int :=
  ((page : Int) - 1) * (limit : Int)

/-- The page count `Math.ceil(total / limit)`. -/
def mathCeilDiv (total limit : Nat) : Int :=
  ⌈((total : ℚ) / (limit : ℚ))⌉

/-- The object literal
`{ page: parseInt(page), limit: parseInt(limit), total, pages: Math.ceil(total / limit) }`
built by `GET /api/tasks` (tasks.js 102-107), `GET /api/users` (users.js 46-51),
`GET /api/users/:id/tasks` (users.js 216-221) and `GET /api/categories/:id/tasks`
(categories.js 206-211); `page` and `limit` default to 1 and 10. -/
def pagination (page limit : Option Nat) (total : Nat) : Pagination :=
  let page := page.getD 1
  let limit := limit.getD 10
  { page := page, limit := limit, total := total, pages := mathCeilDiv total limit }

/-- Pagination of `GET /api/tasks`. -/
def tasksPagination (page limit : Option Nat) (total : Nat) : Pagination :=
  pagination page limit total

/-- Pagination of `GET /api/users`. -/
def usersPagination (page limit : Option Nat) (total : Nat) : Pagination :=
  pagination page limit total

/-- Pagination of `GET /api/users/:id/tasks`. -/
def userTasksPagination (page limit : Option Nat) (total : Nat) : Pagination :=
  pagination page limit total

/-- Pagination of `GET /api/categories/:id/tasks`. -/
def categoryTasksPagination (page limit : Option Nat) (total : Nat) : Pagination :=
  pagination page limit total

/-! ## The task list query builder (`GET /api/tasks`, tasks.js 26-96) -/

/-- The destructured `req.query` of `GET /api/tasks`. -/
structure TaskListQuery where
  page : Option Nat := none
  limit : Option Nat := none
  status : Option String := none
  priority : Option String := none
  user_id : Option String := none
  category_id : Option String := none
  search : Option String := none
  deriving DecidableEq, Repr

/-- Initial text of `query` (tasks.js 39-48). -/
def taskListSelect : String :=
  "\n      SELECT t.id, t.title, t.description, t.status, t.priority, t.due_date, \n" ++
  "             t.created_at, t.updated_at, t.user_id,\n" ++
  "             u.username as user_username,\n" ++
  "             ARRAY_AGG(c.name) as categories\n" ++
  "      FROM tasks t\n" ++
  "      JOIN users u ON t.user_id = u.id\n" ++
  "      LEFT JOIN task_categories tc ON t.id = tc.task_id\n" ++
  "      LEFT JOIN categories c ON tc.category_id = c.id\n" ++
  "    "

/-- Initial text of `countQuery` (tasks.js 50). -/
def taskListCount : String :=
  "SELECT COUNT(DISTINCT t.id) FROM tasks t"

/-- The mutable locals `conditions`, `params` and `paramIndex` of the builder. -/
structure Builder where
  conditions : List String
  params : List Val
  paramIndex : Nat
  deriving DecidableEq, Repr

/-- The locals as declared at tasks.js 51-53. -/
def Builder.init : Builder :=
  { conditions := [], params := [], paramIndex := 1 }

/-- One `if (v) { conditions.push(col = $n); params.push(v) }` block
(tasks.js 55-68, for `t.status`, `t.priority` and `t.user_id`). -/
def Builder.addEquals (b : Builder) (column : String) (v : Option String) : Builder :=
  match v with
  | some s =>
    if truthy (some s) then
      { conditions := b.conditions ++ [column ++ " = $" ++ toString b.paramIndex]
        params := b.params ++ [Val.str s]
        paramIndex := b.paramIndex + 1 }
    else b
  | none => b

/-- The `if (category_id)` block (tasks.js 70-76). -/
def Builder.addCategory (b : Builder) (v : Option String) : Builder :=
  match v with
  | some s =>
    if truthy (some s) then
      { conditions := b.conditions ++
          ["EXISTS (\n        SELECT 1 FROM task_categories tc2 \n" ++
           "        WHERE tc2.task_id = t.id AND tc2.category_id = $" ++
           toString b.paramIndex ++ "\n      )"]
        params := b.params ++ [Val.str s]
        paramIndex := b.paramIndex + 1 }
    else b
  | none => b

/-- The `if (search)` block (tasks.js 78-81): one condition, two placeholders,
two copies of the pattern. -/
def Builder.addSearch (b : Builder) (v : Option String) : Builder :=
  match v with
  | some s =>
    if truthy (some s) then
      { conditions := b.conditions ++
          ["(t.title ILIKE $" ++ toString b.paramIndex ++
           " OR t.description ILIKE $" ++ toString (b.paramIndex + 1) ++ ")"]
        params := b.params ++ [Val.str ("%" ++ s ++ "%"), Val.str ("%" ++ s ++ "%")]
        paramIndex := b.paramIndex + 2 }
    else b
  | none => b

/-- The builder after the five filter blocks, in source order. -/
def taskListFilters (q : TaskListQuery) : Builder :=
  ((((Builder.init.addEquals "t.status" q.status).addEquals "t.priority" q.priority).addEquals
    "t.user_id" q.user_id).addCategory q.category_id).addSearch q.search

/-- The text `conditions.join(' AND ')`. -/
def joinAnd (conditions : List String) : String :=
  " AND ".intercalate conditions

/-- The text appended at tasks.js 88-90 with the two pagination placeholders. -/
def taskListTail (paramIndex : Nat) : String :=
  " GROUP BY t.id, t.title, t.description, t.status, t.priority, t.due_date, \n" ++
  "                     t.created_at, t.updated_at, t.user_id, u.username\n" ++
  "               ORDER BY t.created_at DESC LIMIT $" ++ toString paramIndex ++
  " OFFSET $" ++ toString (paramIndex + 1)

/-- The array `params.slice(0, -2)`. -/
def sliceDropLast2 (params : List Val) : List Val :=
  params.take (params.length - 2)

/-- What the builder hands to the two `req.db.query` calls (tasks.js 93-96). -/
structure TaskListQueries where
  query : String
  params : List Val
  countQuery : String
  countParams : List Val
  deriving DecidableEq, Repr

/-- The query builder of `GET /api/tasks` (tasks.js 28-96). -/
def buildTaskList (q : TaskListQuery) : TaskListQueries :=
  let page := q.page.getD 1
  let limit := q.limit.getD 10
  let offset := offsetOf page limit
  let b := taskListFilters q
  let query :=
    if b.conditions.length > 0 then taskListSelect ++ " WHERE " ++ joinAnd b.conditions
    else taskListSelect
  let countQuery :=
    if b.conditions.length > 0 then taskListCount ++ " WHERE " ++ joinAnd b.conditions
    else taskListCount
  let query := query ++ taskListTail b.paramIndex
  let params := b.params ++ [Val.num limit, Val.num offset]
  { query := query, params := params
    countQuery := countQuery, countParams := sliceDropLast2 params }

/-! ### The builder as the specification words it -/

/-- The parameters contributed by the filters, in the fixed order status,
priority, user_id, category_id, search pattern, search pattern; a filter that
is absent or empty contributes nothing. -/
def filterParams (q : TaskListQuery) : List Val :=
  (if truthy q.status then [Val.str (q.status.getD "")] else []) ++
  (if truthy q.priority then [Val.str (q.priority.getD "")] else []) ++
  (if truthy q.user_id then [Val.str (q.user_id.getD "")] else []) ++
  (if truthy q.category_id then [Val.str (q.category_id.getD "")] else []) ++
  (if truthy q.search then
    [Val.str ("%" ++ q.search.getD "" ++ "%"), Val.str ("%" ++ q.search.getD "" ++ "%")]
   else [])

/-- Whether at least one filter is supplied. -/
def anyFilter (q : TaskListQuery) : Bool :=
  truthy q.status || truthy q.priority || truthy q.user_id || truthy q.category_id ||
    truthy q.search

/-- The conditions after the first one, each preceded by ` AND `. -/
def andTail : List String → String
  | [] => ""
  | c :: cs => " AND " ++ c ++ andTail cs

/-- The WHERE clause attached to a query: nothing when there is no condition,
otherwise ` WHERE ` followed by the conditions with ` AND ` between each two. -/
def whereClause : List String → String
  | [] => ""
  | c :: cs => " WHERE " ++ c ++ andTail cs

/-- A page count `pages` is the ceiling of `total / limit`: the least integer
`p` with `p * limit ≥ total`. -/
def IsCeilingOf (pages : Int) (total limit : Nat) : Prop :=
  (total : Int) ≤ pages * (limit : Int) ∧
    ∀ p : Int, (total : Int) ≤ p * (limit : Int) → pages ≤ p

/-- Text `pat` occurs in text `s`. -/
def occursIn (pat s : String) : Prop :=
  pat.data <:+: s.data

instance (pat s : String) : Decidable (occursIn pat s) := by
  unfold occursIn; infer_instance

/-- The shape of a task list query: every supplied filter replaced by the
fixed text `x`, every other field dropped. The text of the two queries depends
on the shape only. -/
def shapeOf (a b c d e : Bool) : TaskListQuery :=
  { status := if a then some "x" else none
    priority := if b then some "x" else none
    user_id := if c then some "x" else none
    category_id := if d then some "x" else none
    search := if e then some "x" else none }

/-! ## What the handlers are given from outside

The store generates keys and timestamps; `bcryptjs` hashes passwords; and the
schemas call three format checks of the `Joi` library (`uuid()`, `date().iso()`,
`email()`). None of these is code of the repository. They are parameters of the
embedding: every statement about the handlers holds for whatever the library's
checks decide. -/

/-- The surroundings of a request: the primary key the store generates for an
inserted row, the value of `CURRENT_TIMESTAMP`, the password hashing of
`bcryptjs`, and the verdicts of the library checks `Joi.string().uuid()`,
`Joi.date().iso()` (on a text) and `Joi.string().email()`. -/
structure Env where
  newId : String
  now : Nat
  hash : String → String
  guid : String → Bool
  isoDate : String → Bool
  email : String → Bool

/-! ## Request bodies and their schemas

The schemas are `Joi` objects. Their rules are written out here rule by rule,
in the order of the keys of each schema, the first violated rule giving the
error (the library's default `abortEarly`); the three format checks are those
of the environment. Bodies are taken with their fields already of the right
JSON type (text, list of texts, `null`) and without unknown keys. -/

/-- Length of a text in UTF-16 code units, the `length` of a JavaScript string. -/
def jsLength (s : String) : Nat :=
  (s.data.map fun c => if c.val.toNat > 65535 then 2 else 1).sum

/-- A hexadecimal digit, upper or lower case. -/
def isHexDigit (c : Char) : Bool :=
  c.isDigit || ('a' ≤ c && c ≤ 'f') || ('A' ≤ c && c ≤ 'F')

/-- The usual textual form of a UUID: 36 characters, hyphens at offsets 8, 13,
18 and 23, hexadecimal digits elsewhere. It is the GUID check of the sample
environment only; the library's check accepts further forms. -/
def isUuid (s : String) : Bool :=
  s.data.length == 36 &&
    (s.data.enum.all fun (i, c) =>
      if i == 8 || i == 13 || i == 18 || i == 23 then c == '-' else isHexDigit c)

/-- The check of `Joi.string().alphanum()`: only `a-z`, `A-Z`, `0-9`. -/
def isAlphanum (s : String) : Bool :=
  s.data.all fun c => c.isAlphanum

/-- The bare shape of an email address: one `@`, a non-empty local part, and a
domain of at least two non-empty labels. It is the email check of the sample
environment only; the library's check is stricter. -/
def isEmail (s : String) : Bool :=
  match s.splitOn "@" with
  | [l, d] => l != "" && (d.splitOn ".").length ≥ 2 && (d.splitOn ".").all (· != "")
  | _ => false

/-- A text that starts with a calendar date written `YYYY-MM-DD`. It is the date
check of the sample environment only; the library's check differs on other
texts. -/
def isIsoDate (s : String) : Bool :=
  s.data.length ≥ 10 &&
    ((s.data.take 10).enum.all fun (i, c) =>
      if i == 4 || i == 7 then c == '-' else c.isDigit)

/-- The pattern `/^#[0-9A-Fa-f]{6}$/` of `categorySchema.color`. -/
def isHexColor (s : String) : Bool :=
  match s.data with
  | '#' :: ds => ds.length == 6 && ds.all isHexDigit
  | _ => false

/-- The value of `req.body` sent to `POST /api/tasks`. -/
structure TaskBody where
  title : Option String := none
  description : Option String := none
  status : Option String := none
  priority : Option String := none
  user_id : Option String := none
  /-- Absent, `null` (`some none`) or a text. -/
  due_date : Option (Option String) := none
  category_ids : Option (List String) := none
  deriving DecidableEq, Repr

/-- The `value` that `taskSchema.validate` returns, defaults applied. -/
structure TaskValue where
  title : String
  description : Option String
  status : String
  priority : String
  user_id : String
  due_date : Option (Option String)
  category_ids : Option (List String)
  deriving DecidableEq, Repr

/-- The rule `Joi.string().max(1000).allow('')` of `description`. -/
def checkDescription (d : Option String) : Except String Unit :=
  match d with
  | none => .ok ()
  | some s =>
    if jsLength s > 1000 then
      .error "\"description\" length must be less than or equal to 1000 characters long"
    else .ok ()

/-- The rule `Joi.date().iso().allow(null)` of `due_date`. -/
def checkDueDate (env : Env) (d : Option (Option String)) : Except String Unit :=
  match d with
  | some (some s) =>
    if env.isoDate s then .ok () else .error "\"due_date\" must be in ISO 8601 date format"
  | _ => .ok ()

/-- The rule `Joi.array().items(Joi.string().uuid()).optional()` of `category_ids`. -/
def checkCategoryIds (env : Env) (ids : Option (List String)) : Except String Unit :=
  match ids with
  | none => .ok ()
  | some l =>
    match l.enum.find? fun (_, s) => s == "" || !env.guid s with
    | none => .ok ()
    | some (i, s) =>
      if s == "" then
        .error ("\"category_ids[" ++ toString i ++ "]\" is not allowed to be empty")
      else .error ("\"category_ids[" ++ toString i ++ "]\" must be a valid GUID")

/-- The rule `Joi.string().min(1).max(200)` of `title`, on a present title. -/
def checkTitle (s : String) : Except String Unit :=
  if s == "" then .error "\"title\" is not allowed to be empty"
  else if jsLength s > 200 then
    .error "\"title\" length must be less than or equal to 200 characters long"
  else .ok ()

/-- The rule `Joi.string().valid('pending', 'in_progress', 'completed')`. -/
def checkStatus (s : String) : Except String Unit :=
  if s ∈ ["pending", "in_progress", "completed"] then .ok ()
  else .error "\"status\" must be one of [pending, in_progress, completed]"

/-- The rule `Joi.string().valid('low', 'medium', 'high', 'urgent')`. -/
def checkPriority (s : String) : Except String Unit :=
  if s ∈ ["low", "medium", "high", "urgent"] then .ok ()
  else .error "\"priority\" must be one of [low, medium, high, urgent]"

/-- The rules of `taskSchema` (tasks.js 6-14): `taskSchema.validate(req.body)`. -/
def taskSchema.validate (env : Env) (body : TaskBody) : Except String TaskValue := do
  let title ← match body.title with
    | none => .error "\"title\" is required"
    | some s => do checkTitle s; pure s
  checkDescription body.description
  let status ← match body.status with
    | none => pure "pending"
    | some s => do checkStatus s; pure s
  let priority ← match body.priority with
    | none => pure "medium"
    | some s => do checkPriority s; pure s
  let user_id ← match body.user_id with
    | none => .error "\"user_id\" is required"
    | some s =>
      if s == "" then .error "\"user_id\" is not allowed to be empty"
      else if env.guid s then pure s else .error "\"user_id\" must be a valid GUID"
  checkDueDate env body.due_date
  checkCategoryIds env body.category_ids
  pure { title := title, description := body.description, status := status
         priority := priority, user_id := user_id, due_date := body.due_date
         category_ids := body.category_ids }

/-- The value of `req.body` sent to `PUT /api/tasks/:id`; `updateTaskSchema`
has no `user_id` key. -/
structure TaskUpdateBody where
  title : Option String := none
  description : Option String := none
  status : Option String := none
  priority : Option String := none
  due_date : Option (Option String) := none
  category_ids : Option (List String) := none
  deriving DecidableEq, Repr

/-- Number of keys present in an update body, for `.min(1)`. -/
def TaskUpdateBody.keyCount (b : TaskUpdateBody) : Nat :=
  b.title.toList.length + b.description.toList.length + b.status.toList.length +
    b.priority.toList.length + b.due_date.toList.length + b.category_ids.toList.length

/-- The rules of `updateTaskSchema` (tasks.js 16-23); no defaults, so the
value is the body itself. -/
def updateTaskSchema.validate (env : Env) (body : TaskUpdateBody) :
    Except String TaskUpdateBody := do
  match body.title with
    | none => pure ()
    | some s => checkTitle s
  checkDescription body.description
  match body.status with
    | none => pure ()
    | some s => checkStatus s
  match body.priority with
    | none => pure ()
    | some s => checkPriority s
  checkDueDate env body.due_date
  checkCategoryIds env body.category_ids
  if body.keyCount < 1 then .error "\"value\" must have at least 1 key"
  else pure body

/-- The value of `req.body` sent to `POST /api/users`. -/
structure UserBody where
  username : Option String := none
  email : Option String := none
  password : Option String := none
  deriving DecidableEq, Repr

/-- The `value` of a valid `POST /api/users` body. -/
structure UserValue where
  username : String
  email : String
  password : String
  deriving DecidableEq, Repr

/-- The rule `Joi.string().alphanum().min(3).max(50)` of `username`. -/
def checkUsername (s : String) : Except String Unit :=
  if s == "" then .error "\"username\" is not allowed to be empty"
  else if !isAlphanum s then .error "\"username\" must only contain alpha-numeric characters"
  else if jsLength s < 3 then .error "\"username\" length must be at least 3 characters long"
  else if jsLength s > 50 then
    .error "\"username\" length must be less than or equal to 50 characters long"
  else .ok ()

/-- The rule `Joi.string().email()` of `email`. -/
def checkEmail (env : Env) (s : String) : Except String Unit :=
  if s == "" then .error "\"email\" is not allowed to be empty"
  else if !env.email s then .error "\"email\" must be a valid email"
  else .ok ()

/-- The rules of `userSchema` (users.js 7-11). -/
def userSchema.validate (env : Env) (body : UserBody) : Except String UserValue := do
  let username ← match body.username with
    | none => .error "\"username\" is required"
    | some s => do checkUsername s; pure s
  let email ← match body.email with
    | none => .error "\"email\" is required"
    | some s => do checkEmail env s; pure s
  let password ← match body.password with
    | none => .error "\"password\" is required"
    | some s =>
      if s == "" then .error "\"password\" is not allowed to be empty"
      else if jsLength s < 6 then
        .error "\"password\" length must be at least 6 characters long"
      else pure s
  pure { username := username, email := email, password := password }

/-- The value of `req.body` sent to `PUT /api/users/:id`. -/
structure UserUpdateBody where
  username : Option String := none
  email : Option String := none
  deriving DecidableEq, Repr

/-- The rules of `updateUserSchema` (users.js 13-16). -/
def updateUserSchema.validate (env : Env) (body : UserUpdateBody) :
    Except String UserUpdateBody := do
  match body.username with
    | none => pure ()
    | some s => checkUsername s
  match body.email with
    | none => pure ()
    | some s => checkEmail env s
  if body.username.toList.length + body.email.toList.length < 1 then
    .error "\"value\" must have at least 1 key"
  else pure body

/-- The value of `req.body` sent to `POST /api/categories` and
`PUT /api/categories/:id`. -/
structure CategoryBody where
  name : Option String := none
  color : Option String := none
  deriving DecidableEq, Repr

/-- The `value` of a valid category body, the default colour applied. -/
structure CategoryValue where
  name : String
  color : String
  deriving DecidableEq, Repr

/-- The rules of `categorySchema` (categories.js 6-9). -/
def categorySchema.validate (body : CategoryBody) : Except String CategoryValue := do
  let name ← match body.name with
    | none => .error "\"name\" is required"
    | some s =>
      if s == "" then .error "\"name\" is not allowed to be empty"
      else if jsLength s > 50 then
        .error "\"name\" length must be less than or equal to 50 characters long"
      else pure s
  let color ← match body.color with
    | none => pure "#007bff"
    | some s =>
      if s == "" then .error "\"color\" is not allowed to be empty"
      else if !isHexColor s then
        .error ("\"color\" with value \"" ++ s ++
          "\" fails to match the required pattern: /^#[0-9A-Fa-f]\x7b6\x7d$/")
      else pure s
  pure { name := name, color := color }

/-! ## The relational store

The four relations of the service and a session on them. The schema file is
not among the sources; the store enforces what the handlers and the test
suite rely on: generated primary keys (`id`) are unique in `users`, `tasks`
and `categories`, `username` and `email` are unique in `users`, and `name` is
unique in `categories`. A violation raises the store's error code `23505`. -/

/-- A row of `users`. -/
structure User where
  id : String
  username : String
  email : String
  password_hash : String
  created_at : Nat
  updated_at : Nat
  deriving DecidableEq, Repr

/-- A row of `categories`. -/
structure Category where
  id : String
  name : String
  color : String
  created_at : Nat
  deriving DecidableEq, Repr

/-- A row of `tasks`; `description` and `due_date` may be `NULL`. -/
structure Task where
  id : String
  title : String
  description : Option String
  status : String
  priority : String
  user_id : String
  due_date : Option String
  created_at : Nat
  updated_at : Nat
  deriving DecidableEq, Repr

/-- A row of `task_categories`. -/
structure TaskCategory where
  task_id : String
  category_id : String
  deriving DecidableEq, Repr

/-- The contents of the four relations. -/
structure Database where
  users : List User := []
  tasks : List Task := []
  categories : List Category := []
  task_categories : List TaskCategory := []
  deriving DecidableEq, Repr

/-- The store as one request sees it: the committed contents and, while the
client connection has a transaction open, the working copy of that
transaction. -/
structure Store where
  committed : Database
  pending : Option Database := none
  deriving DecidableEq, Repr

/-- The connection a statement is sent on: the client obtained from
`req.db.connect()`, or the pool itself (`req.db.query`). -/
inductive Conn where
  | client
  | pool
  deriving DecidableEq, Repr

/-- What a statement on connection `c` reads. -/
def Store.view (s : Store) : Conn → Database
  | .client => s.pending.getD s.committed
  | .pool => s.committed

/-- The store after a statement on connection `c` has produced contents `db`:
inside the client's transaction the working copy changes, otherwise the
statement commits on its own. -/
def Store.write (s : Store) (c : Conn) (db : Database) : Store :=
  match c, s.pending with
  | .client, some _ => { s with pending := some db }
  | _, _ => { s with committed := db }

/-- An exception as the handlers see it: `error.code` and `error.message`. -/
structure Exn where
  code : Option String := none
  message : String := ""
  deriving DecidableEq, Repr

/-- The store's unique-violation error. -/
def uniqueViolation : Exn :=
  { code := some "23505", message := "duplicate key value violates unique constraint" }

/-- The store's syntax error. -/
def syntaxError : Exn :=
  { code := some "42601", message := "syntax error" }

/-- One `col = $n` entry of the `UPDATE tasks` statement with its parameter. -/
inductive TaskSet where
  | title (v : String)
  | description (v : String)
  | status (v : String)
  | priority (v : String)
  | due_date (v : Option String)
  deriving DecidableEq, Repr

/-- One `col = $n` entry of the `UPDATE users` statement with its parameter. -/
inductive UserSet where
  | username (v : String)
  | email (v : String)
  deriving DecidableEq, Repr

/-- The statements the handlers send, each with its parameters. -/
inductive Stmt where
  /-- Statement `BEGIN` -/
  | begin
  /-- Statement `COMMIT` -/
  | commit
  /-- Statement `ROLLBACK` -/
  | rollback
  /-- Statement `SELECT id FROM users WHERE id = $1` -/
  | selectUserId (id : String)
  /-- Statement `INSERT INTO tasks (title, description, status, priority, user_id, due_date)
  VALUES ($1, $2, $3, $4, $5, $6) RETURNING ...` -/
  | insertTask (title : String) (description : Option String) (status priority user_id : String)
      (due_date : Option String)
  /-- Statement `SELECT id FROM categories WHERE id = ANY($1)` -/
  | selectCategoriesAny (ids : List String)
  /-- Statement `INSERT INTO task_categories (task_id, category_id) VALUES <text>`, the
  text interpolated into the statement. -/
  | insertTaskCategories (values : String)
  /-- The joined `SELECT ... FROM tasks t JOIN users u ... WHERE t.id = $1 GROUP BY ...` -/
  | selectTaskJoined (id : String)
  /-- Statement `SELECT id FROM tasks WHERE id = $1` -/
  | selectTaskId (id : String)
  /-- Statement `UPDATE tasks SET <sets>, updated_at = CURRENT_TIMESTAMP WHERE id = $n` -/
  | updateTask (sets : List TaskSet) (id : String)
  /-- Statement `DELETE FROM task_categories WHERE task_id = $1` -/
  | deleteTaskCategories (task_id : String)
  /-- Statement `SELECT id FROM categories WHERE id = $1` -/
  | selectCategoryId (id : String)
  /-- Statement `SELECT COUNT(*) FROM task_categories WHERE category_id = $1` -/
  | countTaskCategories (category_id : String)
  /-- Statement `DELETE FROM categories WHERE id = $1` -/
  | deleteCategory (id : String)
  /-- Statement `SELECT c.id, c.name, c.color, c.created_at, COUNT(tc.task_id) as task_count
  FROM categories c LEFT JOIN task_categories tc ... WHERE c.id = $1 GROUP BY ...` -/
  | selectCategoryJoined (id : String)
  /-- Statement `INSERT INTO users (username, email, password_hash) VALUES ($1, $2, $3) RETURNING ...` -/
  | insertUser (username email password_hash : String)
  /-- Statement `UPDATE users SET <sets>, updated_at = CURRENT_TIMESTAMP WHERE id = $n RETURNING ...` -/
  | updateUser (sets : List UserSet) (id : String)
  /-- Statement `INSERT INTO categories (name, color) VALUES ($1, $2) RETURNING ...` -/
  | insertCategory (name color : String)
  /-- Statement `UPDATE categories SET name = $1, color = $2 WHERE id = $3 RETURNING ...` -/
  | updateCategory (name color id : String)
  deriving DecidableEq, Repr

/-- A task with the columns the joined query adds. -/
structure JoinedTask where
  task : Task
  user_username : String
  /-- Aggregate `ARRAY_AGG(c.name)`; an entry is `NULL` where the left join found nothing. -/
  categories : List (Option String)
  deriving DecidableEq, Repr

/-- The columns of a user that the handlers return (no `password_hash`). -/
structure UserView where
  id : String
  username : String
  email : String
  created_at : Nat
  updated_at : Nat
  deriving DecidableEq, Repr

/-- A row of a result set. -/
inductive Row where
  | id (id : String)
  | count (n : Nat)
  | task (t : Task)
  | joined (j : JoinedTask)
  | user (u : UserView)
  | category (c : Category)
  | categoryCount (c : Category) (task_count : Nat)
  deriving DecidableEq, Repr

/-- The single quote character. -/
def quote : Char := Char.ofNat 39

/-- Reads one quoted literal at the head of the text: a quote, characters other
than a quote, a closing quote. -/
def readLiteral (cs : List Char) : Option (String × List Char) :=
  match cs with
  | [] => none
  | c :: rest =>
    if c == quote then
      match rest.dropWhile (· != quote) with
      | [] => none
      | _ :: after => some (String.mk (rest.takeWhile (· != quote)), after)
    else none

/-- Skips blanks. -/
def skipBlanks (cs : List Char) : List Char :=
  cs.dropWhile (· == ' ')

/-- Reads one row `('a', 'b')` of a VALUES list. -/
def readPair (cs : List Char) : Option (TaskCategory × List Char) :=
  match skipBlanks cs with
  | '(' :: r1 =>
    match readLiteral (skipBlanks r1) with
    | some (a, r2) =>
      match skipBlanks r2 with
      | ',' :: r3 =>
        match readLiteral (skipBlanks r3) with
        | some (b, r4) =>
          match skipBlanks r4 with
          | ')' :: r5 => some ({ task_id := a, category_id := b }, r5)
          | _ => none
        | none => none
      | _ => none
    | none => none
  | _ => none

/-- Reads a comma-separated list of rows; `fuel` bounds the number of rows. -/
def readPairs : Nat → List Char → Option (List TaskCategory)
  | 0, _ => none
  | fuel + 1, cs =>
    match readPair cs with
    | none => none
    | some (p, rest) =>
      match skipBlanks rest with
      | [] => some [p]
      | ',' :: more => (readPairs fuel more).map (p :: ·)
      | _ => none

/-- The rows denoted by the VALUES text of the `task_categories` insert, as the
store's parser reads it: a comma-separated list of rows of two quoted
literals. A text of any other shape is a syntax error (`none`). -/
def parseValues (values : String) : Option (List TaskCategory) :=
  readPairs values.data.length values.data

/-- The rows of the joined task query for task `id`. -/
def joinedRows (db : Database) (id : String) : List Row :=
  (db.tasks.filter (·.id == id)).flatMap fun t =>
    (db.users.filter (·.id == t.user_id)).map fun u =>
      let tcs := db.task_categories.filter (·.task_id == t.id)
      let names : List (Option String) :=
        if tcs.isEmpty then [none]
        else tcs.flatMap fun tc =>
          match db.categories.filter (·.id == tc.category_id) with
          | [] => [none]
          | cs => cs.map fun c => some c.name
      Row.joined { task := t, user_username := u.username, categories := names }

/-- The effect of one `col = $n` entry on a task row. -/
def TaskSet.apply (t : Task) : TaskSet → Task
  | .title v => { t with title := v }
  | .description v => { t with description := some v }
  | .status v => { t with status := v }
  | .priority v => { t with priority := v }
  | .due_date v => { t with due_date := v }

/-- The effect of one `col = $n` entry on a user row. -/
def UserSet.apply (u : User) : UserSet → User
  | .username v => { u with username := v }
  | .email v => { u with email := v }

/-- The columns of a user row that `RETURNING` lists. -/
def User.view (u : User) : UserView :=
  { id := u.id, username := u.username, email := u.email
    created_at := u.created_at, updated_at := u.updated_at }

/-- Whether the rows of `users` satisfy the uniqueness constraints. -/
def usersUnique (us : List User) : Bool :=
  (us.map (·.id)).Nodup && (us.map (·.username)).Nodup && (us.map (·.email)).Nodup

/-- Whether the rows of `categories` satisfy the uniqueness constraints. -/
def categoriesUnique (cs : List Category) : Bool :=
  (cs.map (·.id)).Nodup && (cs.map (·.name)).Nodup

/-- The effect of `UPDATE tasks SET <sets>, updated_at = CURRENT_TIMESTAMP WHERE id = $n`
on one row. -/
def touchTask (env : Env) (sets : List TaskSet) (id : String) (t : Task) : Task :=
  if t.id == id then { sets.foldl TaskSet.apply t with updated_at := env.now } else t

/-- The effect of `UPDATE users SET <sets>, updated_at = CURRENT_TIMESTAMP WHERE id = $n`
on one row. -/
def touchUser (env : Env) (sets : List UserSet) (id : String) (u : User) : User :=
  if u.id == id then { sets.foldl UserSet.apply u with updated_at := env.now } else u

/-- The store executing statement `st` sent on connection `c`: the result rows
and the store afterwards, or the error raised. -/
def exec (env : Env) (c : Conn) (st : Stmt) (s : Store) : Except Exn (List Row × Store) :=
  let db := s.view c
  match st with
  | .begin =>
    match c, s.pending with
    | .client, none => .ok ([], { s with pending := some s.committed })
    | _, _ => .ok ([], s)
  | .commit =>
    match c, s.pending with
    | .client, some d => .ok ([], { committed := d, pending := none })
    | _, _ => .ok ([], s)
  | .rollback =>
    match c with
    | .client => .ok ([], { s with pending := none })
    | .pool => .ok ([], s)
  | .selectUserId id => .ok ((db.users.filter (·.id == id)).map (Row.id ·.id), s)
  | .insertTask title description status priority user_id due_date =>
    let t : Task :=
      { id := env.newId, title := title, description := description, status := status
        priority := priority, user_id := user_id, due_date := due_date
        created_at := env.now, updated_at := env.now }
    if db.tasks.any (·.id == env.newId) then .error uniqueViolation
    else .ok ([Row.task t], s.write c { db with tasks := db.tasks ++ [t] })
  | .selectCategoriesAny ids =>
    .ok ((db.categories.filter fun k => ids.contains k.id).map (Row.id ·.id), s)
  | .insertTaskCategories values =>
    match parseValues values with
    | none => .error syntaxError
    | some rows =>
      .ok ([], s.write c { db with task_categories := db.task_categories ++ rows })
  | .selectTaskJoined id => .ok (joinedRows db id, s)
  | .selectTaskId id => .ok ((db.tasks.filter (·.id == id)).map (Row.id ·.id), s)
  | .updateTask sets id =>
    .ok ([], s.write c { db with tasks := db.tasks.map (touchTask env sets id) })
  | .deleteTaskCategories task_id =>
    .ok ([], s.write c { db with
      task_categories := db.task_categories.filter (·.task_id != task_id) })
  | .selectCategoryId id => .ok ((db.categories.filter (·.id == id)).map (Row.id ·.id), s)
  | .countTaskCategories category_id =>
    .ok ([Row.count (db.task_categories.filter (·.category_id == category_id)).length], s)
  | .deleteCategory id =>
    .ok ([], s.write c { db with categories := db.categories.filter (·.id != id) })
  | .selectCategoryJoined id =>
    .ok ((db.categories.filter (·.id == id)).map fun k =>
      Row.categoryCount k (db.task_categories.filter (·.category_id == k.id)).length, s)
  | .insertUser username email password_hash =>
    let u : User :=
      { id := env.newId, username := username, email := email
        password_hash := password_hash, created_at := env.now, updated_at := env.now }
    if usersUnique (db.users ++ [u]) then
      .ok ([Row.user u.view], s.write c { db with users := db.users ++ [u] })
    else .error uniqueViolation
  | .updateUser sets id =>
    let us := db.users.map (touchUser env sets id)
    if usersUnique us then
      .ok ((us.filter (·.id == id)).map (Row.user ·.view), s.write c { db with users := us })
    else .error uniqueViolation
  | .insertCategory name color =>
    let k : Category := { id := env.newId, name := name, color := color, created_at := env.now }
    if categoriesUnique (db.categories ++ [k]) then
      .ok ([Row.category k], s.write c { db with categories := db.categories ++ [k] })
    else .error uniqueViolation
  | .updateCategory name color id =>
    let ks := db.categories.map fun k =>
      if k.id == id then { k with name := name, color := color } else k
    if categoriesUnique ks then
      .ok ((ks.filter (·.id == id)).map Row.category, s.write c { db with categories := ks })
    else .error uniqueViolation

/-! ## Requests against the store

A request runs against a `World`: the store, the faults the environment will
inject (one entry per call to the store, `some e` making that call throw `e`;
past the end of the list no call is made to fail), and the log of the calls
made so far. -/

/-- A call to the store. -/
inductive Event where
  | connect
  | query (c : Conn) (st : Stmt)
  | release
  deriving DecidableEq, Repr

/-- The state a request runs against. -/
structure World where
  store : Store
  faults : List (Option Exn) := []
  log : List Event := []
  deriving DecidableEq, Repr

/-- A computation of a handler: it ends with a value or a thrown exception,
and in both cases with a world. -/
def Handler (α : Type) : Type :=
  World → Except Exn α × World

/-- Sequencing: an exception of the first part skips the second. -/
def Handler.bind {α β : Type} (m : Handler α) (f : α → Handler β) : Handler β :=
  fun w =>
    match m w with
    | (.ok a, w1) => f a w1
    | (.error e, w1) => (.error e, w1)

/-- A computation that returns `a` at once. -/
def Handler.pure {α : Type} (a : α) : Handler α :=
  fun w => (.ok a, w)

/-- A computation that throws `e`. -/
def Handler.throw {α : Type} (e : Exn) : Handler α :=
  fun w => (.error e, w)

instance : Monad Handler where
  pure := Handler.pure
  bind := Handler.bind

/-- The fault, if any, that the environment injects into the next call, and the
faults left. -/
def nextFault (faults : List (Option Exn)) : Option Exn × List (Option Exn) :=
  match faults with
  | [] => (none, [])
  | f :: rest => (f, rest)

/-- Acquisition of a client, `await req.db.connect()`. -/
def connect : Handler Unit := fun w =>
  let w1 := { w with log := w.log ++ [Event.connect], faults := (nextFault w.faults).2 }
  match (nextFault w.faults).1 with
  | some e => (.error e, w1)
  | none => (.ok (), w1)

/-- A statement sent on connection `c`: `await client.query(...)` or
`await req.db.query(...)`. -/
def query (env : Env) (c : Conn) (st : Stmt) : Handler (List Row) := fun w =>
  let w1 := { w with log := w.log ++ [Event.query c st], faults := (nextFault w.faults).2 }
  match (nextFault w.faults).1 with
  | some e => (.error e, w1)
  | none =>
    match exec env c st w1.store with
    | .ok (rows, s) => (.ok rows, { w1 with store := s })
    | .error e => (.error e, w1)

/-- Return of the client to the pool, `client.release()`. -/
def release (w : World) : World :=
  { w with log := w.log ++ [Event.release] }

/-! ## Responses -/

/-- The JSON sent with a response. -/
inductive Payload where
  /-- The object with the single key `error`. -/
  | error (error : String)
  /-- The object with the keys `error` and `message`. -/
  | errorMessage (error message : String)
  /-- The value of `rows[0]`, `undefined` when there is no row. -/
  | row (r : Option Row)
  /-- No body, as sent by `res.status(204).send()`. -/
  | empty
  deriving DecidableEq, Repr

/-- A response: status code and body. -/
structure Response where
  status : Nat
  body : Payload
  deriving DecidableEq, Repr

/-- The `TypeError` of reading a property of `undefined`. -/
def typeError : Exn :=
  { code := none, message := "Cannot read properties of undefined" }

/-- The skeleton shared by the three transactional handlers, after the client
has been acquired:
`try { body } catch (error) { await client.query('ROLLBACK'); res.status(500).json(...) }
finally { client.release() }`.
The result is `none` when no response is sent: the `ROLLBACK` of the `catch`
block threw, and the handler's promise is rejected. -/
def tryCatchRollback (env : Env) (failure : String) (body : Handler Response) :
    World → Option Response × World := fun w =>
  match body w with
  | (.ok r, w1) => (some r, release w1)
  | (.error _, w1) =>
    match query env .client .rollback w1 with
    | (.ok _, w2) => (some { status := 500, body := .error failure }, release w2)
    | (.error _, w2) => (none, release w2)

/-- A transactional handler: `const client = await req.db.connect()` ahead of
the `try`; when the acquisition throws, nothing else runs and no response is
sent. -/
def withClient (env : Env) (failure : String) (body : Handler Response) :
    World → Option Response × World := fun w =>
  match connect w with
  | (.error _, w1) => (none, w1)
  | (.ok _, w1) => tryCatchRollback env failure body w1

/-! ## Task handlers (tasks.js) -/

/-- Evaluation of `task.id` for `task = taskResult.rows[0]`. -/
def taskIdOf (rows : List Row) : Handler String :=
  match rows with
  | Row.task t :: _ => pure t.id
  | _ => Handler.throw typeError

/-- The text of one quote. -/
def q1 : String := String.singleton quote

/-- The result of `s.replace(/\(/g, "('")`. -/
def replaceOpen (cs : List Char) : List Char :=
  cs.flatMap fun c => if c == '(' then ['(', quote] else [c]

/-- The result of `s.replace(/\)/g, "')")`. -/
def replaceClose (cs : List Char) : List Char :=
  cs.flatMap fun c => if c == ')' then [quote, ')'] else [c]

/-- The result of `s.replace(/, /g, "', '")`. -/
def replaceCommaBlank : List Char → List Char
  | ',' :: ' ' :: rest => quote :: ',' :: ' ' :: quote :: replaceCommaBlank rest
  | c :: rest => c :: replaceCommaBlank rest
  | [] => []

/-- The text `category_ids.map(catId => ...).join(',')` (tasks.js 190 and 302):
one `('<task id>', '<category id>')` per category id. -/
def categoryValues (taskId : String) (category_ids : List String) : String :=
  ",".intercalate
    (category_ids.map fun catId => "(" ++ q1 ++ taskId ++ q1 ++ ", " ++ q1 ++ catId ++ q1 ++ ")")

/-- The text interpolated after `VALUES` (tasks.js 193 and 305): the three
chained `replace` calls applied to `categoryValues`. -/
def valuesText (taskId : String) (category_ids : List String) : String :=
  String.mk (replaceCommaBlank (replaceClose (replaceOpen (categoryValues taskId category_ids).data)))

/-- The joined re-read and the response, after `COMMIT` (tasks.js 197-214). -/
def createTaskFinish (env : Env) (taskResult : List Row) : Handler Response := do
  let _ ← query env .client .commit
  let taskId ← taskIdOf taskResult
  let completeTask ← query env .pool (.selectTaskJoined taskId)
  pure { status := 201, body := .row completeTask.head? }

/-- The `try` block of `POST /api/tasks` (tasks.js 150-214). -/
def createTaskTry (env : Env) (body : TaskBody) : Handler Response :=
  match taskSchema.validate env body with
  | .error msg => pure { status := 400, body := .error msg }
  | .ok value => do
    let _ ← query env .client .begin
    let userCheck ← query env .client (.selectUserId value.user_id)
    if userCheck.length = 0 then do
      let _ ← query env .client .rollback
      pure { status := 400, body := .error "User not found" }
    else do
      let taskResult ← query env .client
        (.insertTask value.title value.description value.status value.priority value.user_id
          value.due_date.join)
      match value.category_ids with
      | some (c :: cs) => do
        let category_ids := c :: cs
        let categoryCheck ← query env .client (.selectCategoriesAny category_ids)
        if categoryCheck.length ≠ category_ids.length then do
          let _ ← query env .client .rollback
          pure { status := 400, body := .error "One or more categories not found" }
        else do
          let taskId ← taskIdOf taskResult
          let _ ← query env .client (.insertTaskCategories (valuesText taskId category_ids))
          createTaskFinish env taskResult
      | _ => createTaskFinish env taskResult

/-- The handler of `POST /api/tasks` (tasks.js 146-222). -/
def createTask (env : Env) (body : TaskBody) : World → Option Response × World :=
  withClient env "Failed to create task" (createTaskTry env body)

/-- The `updates` and `params` arrays of `PUT /api/tasks/:id` (tasks.js 248-275),
one entry per field that is not `undefined`, in source order. -/
def taskSets (value : TaskUpdateBody) : List TaskSet :=
  (value.title.map TaskSet.title).toList ++
  (value.description.map TaskSet.description).toList ++
  (value.status.map TaskSet.status).toList ++
  (value.priority.map TaskSet.priority).toList ++
  (value.due_date.map TaskSet.due_date).toList

/-- The joined re-read and the response, after `COMMIT` (tasks.js 310-327). -/
def updateTaskFinish (env : Env) (id : String) : Handler Response := do
  let _ ← query env .client .commit
  let updatedTask ← query env .pool (.selectTaskJoined id)
  pure { status := 200, body := .row updatedTask.head? }

/-- The `try` block of `PUT /api/tasks/:id` (tasks.js 229-327). -/
def updateTaskTry (env : Env) (id : String) (body : TaskUpdateBody) : Handler Response :=
  match updateTaskSchema.validate env body with
  | .error msg => pure { status := 400, body := .error msg }
  | .ok value => do
    let _ ← query env .client .begin
    let taskCheck ← query env .client (.selectTaskId id)
    if taskCheck.length = 0 then do
      let _ ← query env .client .rollback
      pure { status := 404, body := .error "Task not found" }
    else do
      let _ ← query env .client (.updateTask (taskSets value) id)
      match value.category_ids with
      | none => updateTaskFinish env id
      | some category_ids => do
        let _ ← query env .client (.deleteTaskCategories id)
        if category_ids.length > 0 then do
          let categoryCheck ← query env .client (.selectCategoriesAny category_ids)
          if categoryCheck.length ≠ category_ids.length then do
            let _ ← query env .client .rollback
            pure { status := 400, body := .error "One or more categories not found" }
          else do
            let _ ← query env .client (.insertTaskCategories (valuesText id category_ids))
            updateTaskFinish env id
        else updateTaskFinish env id

/-- The handler of `PUT /api/tasks/:id` (tasks.js 225-335). -/
def updateTask (env : Env) (id : String) (body : TaskUpdateBody) :
    World → Option Response × World :=
  withClient env "Failed to update task" (updateTaskTry env id body)

/-! ## Category handlers (categories.js) -/

/-- The `catch` block of the category and user write handlers: `409` for the
error code `23505`, `500` otherwise. -/
def conflictOr500 (conflict failure : String) (e : Exn) : Response :=
  if e.code == some "23505" then { status := 409, body := .error conflict }
  else { status := 500, body := .error failure }

/-- The `try` block of `POST /api/categories` (categories.js 58-71). -/
def createCategoryTry (env : Env) (body : CategoryBody) : Handler Response :=
  match categorySchema.validate body with
  | .error msg => pure { status := 400, body := .error msg }
  | .ok value => do
    let result ← query env .pool (.insertCategory value.name value.color)
    pure { status := 201, body := .row result.head? }

/-- The handler of `POST /api/categories` (categories.js 56-81). -/
def createCategory (env : Env) (body : CategoryBody) : World → Option Response × World :=
  fun w =>
    match createCategoryTry env body w with
    | (.ok r, w1) => (some r, w1)
    | (.error e, w1) =>
      (some (conflictOr500 "Category name already exists" "Failed to create category" e), w1)

/-- The `try` block of `PUT /api/categories/:id` (categories.js 86-104). -/
def updateCategoryTry (env : Env) (id : String) (body : CategoryBody) : Handler Response :=
  match categorySchema.validate body with
  | .error msg => pure { status := 400, body := .error msg }
  | .ok value => do
    let result ← query env .pool (.updateCategory value.name value.color id)
    if result.length = 0 then pure { status := 404, body := .error "Category not found" }
    else pure { status := 200, body := .row result.head? }

/-- The handler of `PUT /api/categories/:id` (categories.js 84-114). -/
def updateCategory (env : Env) (id : String) (body : CategoryBody) :
    World → Option Response × World :=
  fun w =>
    match updateCategoryTry env id body w with
    | (.ok r, w1) => (some r, w1)
    | (.error e, w1) =>
      (some (conflictOr500 "Category name already exists" "Failed to update category" e), w1)

/-- Evaluation of `parseInt(usageCheck.rows[0].count)`. -/
def countOf (rows : List Row) : Handler Nat :=
  match rows with
  | Row.count n :: _ => pure n
  | _ => Handler.throw typeError

/-- The `try` block of `DELETE /api/categories/:id` (categories.js 121-151). -/
def deleteCategoryTry (env : Env) (id : String) : Handler Response := do
  let _ ← query env .client .begin
  let categoryCheck ← query env .client (.selectCategoryId id)
  if categoryCheck.length = 0 then do
    let _ ← query env .client .rollback
    pure { status := 404, body := .error "Category not found" }
  else do
    let usageCheck ← query env .client (.countTaskCategories id)
    let count ← countOf usageCheck
    if count > 0 then do
      let _ ← query env .client .rollback
      pure { status := 400
             body := Payload.errorMessage "Cannot delete category"
               "Category is being used by tasks. Remove it from all tasks first." }
    else do
      let _ ← query env .client (.deleteCategory id)
      let _ ← query env .client .commit
      pure { status := 204, body := .empty }

/-- The handler of `DELETE /api/categories/:id` (categories.js 117-159). -/
def deleteCategory (env : Env) (id : String) : World → Option Response × World :=
  withClient env "Failed to delete category" (deleteCategoryTry env id)

/-- The `try` block of `GET /api/categories/:id` (categories.js 32-48). -/
def getCategoryTry (env : Env) (id : String) : Handler Response := do
  let result ← query env .pool (.selectCategoryJoined id)
  if result.length = 0 then pure { status := 404, body := .error "Category not found" }
  else pure { status := 200, body := .row result.head? }

/-- The handler of `GET /api/categories/:id` (categories.js 31-53). -/
def getCategory (env : Env) (id : String) : World → Option Response × World :=
  fun w =>
    match getCategoryTry env id w with
    | (.ok r, w1) => (some r, w1)
    | (.error _, w1) => (some { status := 500, body := .error "Failed to fetch category" }, w1)

/-! ## User handlers (users.js) -/

/-- The `try` block of `POST /api/users` (users.js 83-98). -/
def createUserTry (env : Env) (body : UserBody) : Handler Response :=
  match userSchema.validate env body with
  | .error msg => pure { status := 400, body := .error msg }
  | .ok value => do
    let passwordHash := env.hash value.password
    let result ← query env .pool (.insertUser value.username value.email passwordHash)
    pure { status := 201, body := .row result.head? }

/-- The handler of `POST /api/users` (users.js 81-108). -/
def createUser (env : Env) (body : UserBody) : World → Option Response × World :=
  fun w =>
    match createUserTry env body w with
    | (.ok r, w1) => (some r, w1)
    | (.error e, w1) =>
      (some (conflictOr500 "Username or email already exists" "Failed to create user" e), w1)

/-- The `updates` and `params` arrays of `PUT /api/users/:id` (users.js 120-132):
an entry for each of `username` and `email` that is truthy. -/
def userSets (value : UserUpdateBody) : List UserSet :=
  (if truthy value.username then [UserSet.username (value.username.getD "")] else []) ++
  (if truthy value.email then [UserSet.email (value.email.getD "")] else [])

/-- The `try` block of `PUT /api/users/:id` (users.js 113-145). -/
def updateUserTry (env : Env) (id : String) (body : UserUpdateBody) : Handler Response :=
  match updateUserSchema.validate env body with
  | .error msg => pure { status := 400, body := .error msg }
  | .ok value => do
    let result ← query env .pool (.updateUser (userSets value) id)
    if result.length = 0 then pure { status := 404, body := .error "User not found" }
    else pure { status := 200, body := .row result.head? }

/-- The handler of `PUT /api/users/:id` (users.js 111-155). -/
def updateUser (env : Env) (id : String) (body : UserUpdateBody) :
    World → Option Response × World :=
  fun w =>
    match updateUserTry env id body w with
    | (.ok r, w1) => (some r, w1)
    | (.error e, w1) =>
      (some (conflictOr500 "Username or email already exists" "Failed to update user" e), w1)

/-! ## Reading a run -/

/-- A world at the start of a request: committed contents `db`, no transaction
open, the given faults ahead, nothing logged. -/
def World.start (db : Database) (faults : List (Option Exn)) : World :=
  { store := { committed := db, pending := none }, faults := faults, log := [] }

/-- Whether an event is a statement, as opposed to acquiring or releasing the
client. -/
def Event.isQuery : Event → Bool
  | .query _ _ => true
  | _ => false

/-- Whether an event is an `INSERT` into `tasks` or `task_categories`. -/
def Event.isTaskInsert : Event → Bool
  | .query _ (.insertTask _ _ _ _ _ _) => true
  | .query _ (.insertTaskCategories _) => true
  | _ => false

/-- Whether an event is the existence check on `categories`. -/
def Event.isCategoryCheck : Event → Bool
  | .query _ (.selectCategoriesAny _) => true
  | _ => false

/-- Whether an event is the joined re-read of a task through the pool. -/
def Event.isReread : Event → Bool
  | .query .pool (.selectTaskJoined _) => true
  | _ => false

/-- The world after a call: the event logged, the fault of the call consumed,
the store as the call left it. -/
def World.step (w : World) (ev : Event) (s : Store) : World :=
  { store := s, faults := (nextFault w.faults).2, log := w.log ++ [ev] }

/-- No joined re-read of a task occurs in the log. -/
def noReread (log : List Event) : Bool :=
  log.all fun e => !e.isReread

/-- What atomicity up to the re-read asks of the outcome of a `try` block:
unless the re-read was reached, an error response or a thrown exception leaves
the committed contents equal to `db`. -/
def TryGood (db : Database) : Except Exn Response × World → Prop
  | (.ok resp, w) => 400 ≤ resp.status → noReread w.log = true → w.store.committed = db
  | (.error _, w) => noReread w.log = true → w.store.committed = db

/-- A create or update request of one of the three entities. -/
inductive WriteRequest where
  | createUser (body : UserBody)
  | updateUser (id : String) (body : UserUpdateBody)
  | createTask (body : TaskBody)
  | updateTask (id : String) (body : TaskUpdateBody)
  | createCategory (body : CategoryBody)
  | updateCategory (id : String) (body : CategoryBody)
  deriving DecidableEq, Repr

/-- The handler a write request is routed to. -/
def WriteRequest.run (env : Env) : WriteRequest → World → Option Response × World
  | .createUser body => Microservice.createUser env body
  | .updateUser id body => Microservice.updateUser env id body
  | .createTask body => Microservice.createTask env body
  | .updateTask id body => Microservice.updateTask env id body
  | .createCategory body => Microservice.createCategory env body
  | .updateCategory id body => Microservice.updateCategory env id body

/-- Whether the body of a write request fails the schema of its route. -/
def WriteRequest.invalid (env : Env) : WriteRequest → Bool
  | .createUser body => !(userSchema.validate env body).isOk
  | .updateUser _ body => !(updateUserSchema.validate env body).isOk
  | .createTask body => !(taskSchema.validate env body).isOk
  | .updateTask _ body => !(updateTaskSchema.validate env body).isOk
  | .createCategory body => !(categorySchema.validate body).isOk
  | .updateCategory _ body => !(categorySchema.validate body).isOk

/-- Whether the route is one of the two task routes, whose handlers acquire a
client from the pool. -/
def WriteRequest.isTask : WriteRequest → Bool
  | .createTask _ => true
  | .updateTask _ _ => true
  | _ => false

/-- The status code of the response, if one was sent. -/
def statusOf (r : Option Response × World) : Option Nat :=
  r.1.map (·.status)

/-- No `INSERT` into `tasks` or `task_categories` occurs in the log. -/
def noTaskInsert (log : List Event) : Bool :=
  log.all fun e => !e.isTaskInsert

/-- Whether a category with this id is stored. -/
def categoryExists (db : Database) (id : String) : Bool :=
  db.categories.any (·.id == id)

/-- The number of `task_categories` rows that reference a category. -/
def usageCount (db : Database) (id : String) : Nat :=
  (db.task_categories.filter (·.category_id == id)).length

/-- The contents without the categories of the given id. -/
def Database.withoutCategory (db : Database) (id : String) : Database :=
  { db with categories := db.categories.filter (·.id != id) }

/-! ## Sample data -/

/-- A sample environment: one fixed generated key, a fixed clock, a marked
password, and format checks that accept the usual written forms. -/
def sampleEnv : Env :=
  { newId := "323e4567-e89b-42d3-a456-426614174000", now := 100,
    hash := fun p => "hash:" ++ p,
    guid := isUuid, isoDate := isIsoDate, email := isEmail }

/-- The id of the sample user. -/
def sampleUserId : String := "123e4567-e89b-42d3-a456-426614174000"

/-- The id of a category that a task uses. -/
def usedCategoryId : String := "223e4567-e89b-42d3-a456-426614174000"

/-- The id of a category that no task uses. -/
def freeCategoryId : String := "223e4567-e89b-42d3-a456-426614174001"

/-- The id of the sample task. -/
def sampleTaskId : String := "423e4567-e89b-42d3-a456-426614174000"

/-- An id that matches no row. -/
def unknownId : String := "523e4567-e89b-42d3-a456-426614174000"

/-- One user, one task of that user in one category, and a second category
without tasks. -/
def sampleDb : Database :=
  { users := [{ id := sampleUserId, username := "testuser", email := "test@example.com"
                password_hash := "hash", created_at := 1, updated_at := 1 }]
    tasks := [{ id := sampleTaskId, title := "First", description := none, status := "pending"
                priority := "medium", user_id := sampleUserId, due_date := none
                created_at := 2, updated_at := 2 }]
    categories := [{ id := usedCategoryId, name := "Test Category", color := "#ff0000"
                     created_at := 1 },
                   { id := freeCategoryId, name := "Spare", color := "#00ff00", created_at := 1 }]
    task_categories := [{ task_id := sampleTaskId, category_id := usedCategoryId }] }

/-- A valid body for `POST /api/tasks` without categories. -/
def sampleTaskBody : TaskBody :=
  { title := some "Test Task", description := some "This is a test task"
    user_id := some sampleUserId, status := some "pending", priority := some "medium" }

/-- The value the schema returns for `sampleTaskBody`. -/
def sampleTaskValue : TaskValue :=
  { title := "Test Task", description := some "This is a test task", status := "pending"
    priority := "medium", user_id := sampleUserId, due_date := none, category_ids := none }

/-- The invalid user body of the test suite: user name and password too short,
malformed email. -/
def invalidUserBody : UserBody :=
  { username := some "ab", email := some "invalid-email", password := some "123" }

/-- The invalid task body of the test suite: empty title, malformed user id. -/
def invalidTaskBody : TaskBody :=
  { title := some "", user_id := some "invalid-uuid" }

/-! ## Scoped transactions (the three multi-statement handlers) -/

/-- A request handled by one of the three handlers that acquire a client and
run a transaction on it. -/
inductive TxRequest where
  | createTask (body : TaskBody)
  | updateTask (id : String) (body : TaskUpdateBody)
  | deleteCategory (id : String)
  deriving DecidableEq, Repr

/-- The handler a transactional request is routed to. -/
def TxRequest.run (env : Env) : TxRequest → World → Option Response × World
  | .createTask body => Microservice.createTask env body
  | .updateTask id body => Microservice.updateTask env id body
  | .deleteCategory id => Microservice.deleteCategory env id

/-- Whether an event is the release of the client. -/
def Event.isRelease : Event → Bool
  | .release => true
  | _ => false

/-- Whether an event is `BEGIN` on the client. -/
def Event.isBegin : Event → Bool
  | .query .client .begin => true
  | _ => false

/-- Whether an event is `COMMIT` on the client. -/
def Event.isCommit : Event → Bool
  | .query .client .commit => true
  | _ => false

/-- Whether an event is `ROLLBACK` on the client. -/
def Event.isRollback : Event → Bool
  | .query .client .rollback => true
  | _ => false

/-- Reading a log from the left: whether the last `BEGIN` sent on the client
has not yet been followed by a `COMMIT` or a `ROLLBACK`. -/
def txStep (isOpen : Bool) (e : Event) : Bool :=
  if e.isBegin then true else if e.isCommit || e.isRollback then false else isOpen

/-- Whether, after the calls of the log, a `BEGIN` is left without a `COMMIT`
or `ROLLBACK` sent after it. -/
def txOpen (log : List Event) : Bool :=
  log.foldl txStep false

/-- The number of times the client is released in the log. -/
def releases (log : List Event) : Nat :=
  log.countP Event.isRelease

/-- Reading a log from the left: whether the last of the statements `BEGIN`,
`COMMIT` and `ROLLBACK` sent on the client so far is a `ROLLBACK`. -/
def closeStep (last : Bool) (e : Event) : Bool :=
  if e.isRollback then true else if e.isBegin || e.isCommit then false else last

/-- Whether the last of the statements `BEGIN`, `COMMIT` and `ROLLBACK` sent on
the client is a `ROLLBACK`. -/
def endsInRollback (log : List Event) : Bool :=
  log.foldl closeStep false

/-- The closing statement matches the outcome: a success response (below 400)
comes with a `COMMIT` and no `ROLLBACK`; an error response, or no response,
after a `BEGIN` has a `ROLLBACK` as the last transaction statement sent. -/
def closingMatches (r : Option Response) (log : List Event) : Bool :=
  match r with
  | some resp =>
    if resp.status < 400 then log.any Event.isCommit && !log.any Event.isRollback
    else !log.any Event.isBegin || endsInRollback log
  | none => !log.any Event.isBegin || endsInRollback log

/-- What the scoped use of a client asks of the outcome of a `try` block, the
`catch` and `finally` still ahead: the client has not been released, and a
response produced by the block comes with the transaction closed and the
matching closing statement. -/
def TryScoped : Except Exn Response × World → Prop
  | (.ok resp, w) =>
    releases w.log = 0 ∧ txOpen w.log = false ∧ w.store.pending = none ∧
      closingMatches (some resp) w.log = true
  | (.error _, w) => releases w.log = 0

/-- What the scoped use of a client gives for a finished run: the client is
released exactly once, as the last call; at that point no `BEGIN` is left
without a `COMMIT` or `ROLLBACK` sent after it; the closing statement matches
the outcome; and when a response was sent the store has no transaction open.
Nothing is said of the store when no response was sent. -/
def Scoped (r : Option Response × World) : Prop :=
  releases r.2.log = 1 ∧ r.2.log.getLast? = some Event.release ∧ txOpen r.2.log = false ∧
    closingMatches r.1 r.2.log = true ∧ (r.1 = none ∨ r.2.store.pending = none)

/-! ## Store errors of the user and category writes -/

/-- The write statement that a user or category request with a valid body
sends through the pool. -/
def WriteRequest.statement (env : Env) : WriteRequest → Option Stmt
  | .createUser body =>
    match userSchema.validate env body with
    | .ok v => some (.insertUser v.username v.email (env.hash v.password))
    | .error _ => none
  | .updateUser id body =>
    match updateUserSchema.validate env body with
    | .ok v => some (.updateUser (userSets v) id)
    | .error _ => none
  | .createCategory body =>
    match categorySchema.validate body with
    | .ok v => some (.insertCategory v.name v.color)
    | .error _ => none
  | .updateCategory id body =>
    match categorySchema.validate body with
    | .ok v => some (.updateCategory v.name v.color id)
    | .error _ => none
  | _ => none

/-- The exception a computation ended with, if it threw. -/
def thrownBy {α : Type} (r : Except Exn α × World) : Option Exn :=
  match r.1 with
  | .error e => some e
  | .ok _ => none

/-- Whether the body of a response is the object with the single key `error`. -/
def Payload.isError : Payload → Bool
  | .error _ => true
  | _ => false

/-- A valid body for `POST /api/categories` whose name is already stored in
`sampleDb`. -/
def duplicateCategoryBody : CategoryBody :=
  { name := some "Test Category", color := some "#123456" }

/-! ## Readiness probe (health.js 29-64) -/

/-- The three relations the readiness probe looks for. -/
def requiredTables : List String := ["users", "tasks", "categories"]

/-- The value of `table_count` that the store returns for the probe's query: the
number of tables of schema `public` whose name is one of the three. -/
def tableCount (publicTables : List String) : Nat :=
  (publicTables.filter fun t => requiredTables.contains t).length

/-- The JSON of a readiness response; the `timestamp` key is left out. -/
structure ReadyBody where
  status : String
  reason : Option String := none
  database : Option String := none
  tables_found : Option Nat := none
  error : Option String := none
  deriving DecidableEq, Repr

/-- A readiness response: status code and body. -/
structure ReadyResponse where
  status : Nat
  body : ReadyBody
  deriving DecidableEq, Repr

/-- The handler of `GET /health/ready` (health.js 29-64). The store is given by
what the probe's query meets: an error thrown by `req.db.query`, or the names
of the tables of schema `public`. -/
def ready (store : Except Exn (List String)) : ReadyResponse :=
  match store with
  | .ok publicTables =>
    let tableCount := tableCount publicTables
    if tableCount < 3 then
      { status := 503
        body := { status := "not ready", reason := some "Database tables not ready"
                  tables_found := some tableCount } }
    else
      { status := 200
        body := { status := "ready", database := some "ready", tables_found := some tableCount } }
  | .error error =>
    { status := 503, body := { status := "not ready", error := some error.message } }

/-! ## Routing of the tasks router (tasks.js) -/

/-- The HTTP methods the routers register. -/
inductive Method where
  | get
  | post
  | put
  | delete
  deriving DecidableEq, Repr

/-- A segment of a route path: literal text, or a named parameter `:name`. -/
inductive Segment where
  | lit (text : String)
  | param (name : String)
  deriving DecidableEq, Repr

/-- The handlers registered on the tasks router. -/
inductive TaskHandler where
  | list
  | getById
  | create
  | update
  | delete
  | stats
  deriving DecidableEq, Repr

/-- A registered route. -/
structure Route where
  method : Method
  path : List Segment
  handler : TaskHandler
  deriving DecidableEq, Repr

/-- The routes of the tasks router in the order of their registration:
`get('/')` (26), `get('/:id')` (116), `post('/')` (146), `put('/:id')` (225),
`delete('/:id')` (338), `get('/stats')` (356). -/
def tasksRouter : List Route :=
  [ { method := .get, path := [], handler := .list },
    { method := .get, path := [.param "id"], handler := .getById },
    { method := .post, path := [], handler := .create },
    { method := .put, path := [.param "id"], handler := .update },
    { method := .delete, path := [.param "id"], handler := .delete },
    { method := .get, path := [.lit "stats"], handler := .stats } ]

/-- Matching of a route path against the segments of a request path, as the
framework does it: a literal matches itself, a parameter matches any non-empty
segment and binds it. The result is `req.params`. -/
def matchPath : List Segment → List String → Option (List (String × String))
  | [], [] => some []
  | .lit text :: ps, s :: ss => if text == s then matchPath ps ss else none
  | .param name :: ps, s :: ss =>
    if s != "" then (matchPath ps ss).map ((name, s) :: ·) else none
  | _, _ => none

/-- Dispatch of a request by the router: the routes are tried in registration
order and the first one whose method and path match handles the request. -/
def dispatch (router : List Route) (method : Method) (path : List String) :
    Option (TaskHandler × List (String × String)) :=
  match router with
  | [] => none
  | r :: rest =>
    if r.method == method then
      match matchPath r.path path with
      | some params => some (r.handler, params)
      | none => dispatch rest method path
    else dispatch rest method path

/-- The `try` block of `GET /api/tasks/:id` (tasks.js 118-138). -/
def getTaskTry (env : Env) (id : String) : Handler Response := do
  let result ← query env .pool (.selectTaskJoined id)
  if result.length = 0 then pure { status := 404, body := .error "Task not found" }
  else pure { status := 200, body := .row result.head? }

/-- The handler of `GET /api/tasks/:id` (tasks.js 116-143). -/
def getTask (env : Env) (id : String) : World → Option Response × World :=
  fun w =>
    match getTaskTry env id w with
    | (.ok r, w1) => (some r, w1)
    | (.error _, w1) => (some { status := 500, body := .error "Failed to fetch task" }, w1)

/-! ## Task statistics (tasks.js 356-397) -/

/-- The locals `userFilter` and `params` after tasks.js 360-366. -/
def statsUserFilter (user_id : Option String) : String × List Val :=
  if truthy user_id then ("WHERE user_id = $1", [Val.str (user_id.getD "")]) else ("", [])

/-- The text of the first statement, counts by status (tasks.js 369-374). -/
def statsStatusQuery (userFilter : String) : String :=
  "\n        SELECT status, COUNT(*) as count\n        FROM tasks " ++ userFilter ++
  "\n        GROUP BY status\n        ORDER BY count DESC\n      "

/-- The text of the second statement, counts by priority (tasks.js 375-380). -/
def statsPriorityQuery (userFilter : String) : String :=
  "\n        SELECT priority, COUNT(*) as count\n        FROM tasks " ++ userFilter ++
  "\n        GROUP BY priority\n        ORDER BY count DESC\n      "

/-- The text of the third statement, tasks created in the last 7 days
(tasks.js 381-385). -/
def statsRecentQuery (userFilter : String) : String :=
  "\n        SELECT COUNT(*) as total\n        FROM tasks " ++ userFilter ++
  "\n        WHERE created_at >= CURRENT_DATE - INTERVAL " ++ q1 ++ "7 days" ++ q1 ++ "\n      "

/-- The three statements of the statistics handler with their parameter list. -/
structure StatsQueries where
  byStatus : String
  byPriority : String
  recent : String
  params : List Val
  deriving DecidableEq, Repr

/-- The statements that `GET /api/tasks/stats` sends for a given `user_id` of
the query string (tasks.js 358-386). -/
def buildStats (user_id : Option String) : StatsQueries :=
  let (userFilter, params) := statsUserFilter user_id
  { byStatus := statsStatusQuery userFilter, byPriority := statsPriorityQuery userFilter
    recent := statsRecentQuery userFilter, params := params }

/-- The number of places at which text `pat` occurs in text `s`. -/
def occurrences (pat s : String) : Nat :=
  (s.data.tails.filter fun t => pat.data.isPrefixOf t).length

/-! ## The test suite's task creation (api.test.js 44-57, 120-138) -/

/-- The store after the `beforeAll` block of the test suite: the user
`test-user-id` and the category `test-cat-id`. -/
def testDb : Database :=
  { users := [{ id := "test-user-id", username := "testuser", email := "test@example.com"
                password_hash := "hash", created_at := 1, updated_at := 1 }]
    categories := [{ id := "test-cat-id", name := "Test Category", color := "#ff0000"
                     created_at := 1 }] }

/-- The body `taskData` that the test `should create a new task` posts. -/
def testTaskBody : TaskBody :=
  { title := some "Test Task", description := some "This is a test task"
    user_id := some "test-user-id", status := some "pending", priority := some "medium" }

/-! ## Placeholders of a statement text -/

/-- The state of a left-to-right scan for placeholders `$n`: the numbers found
so far and, while a placeholder is being read, the value of its digits so far
(`some none` right after the `$`). -/
structure PlaceholderScan where
  found : List Nat
  current : Option (Option Nat)
  deriving DecidableEq, Repr

/-- The numbers found, the placeholder being read included if it has a digit. -/
def PlaceholderScan.flush (s : PlaceholderScan) : List Nat :=
  match s.current with
  | some (some n) => s.found ++ [n]
  | _ => s.found

/-- One character of the scan. -/
def PlaceholderScan.step (s : PlaceholderScan) (c : Char) : PlaceholderScan :=
  if c == '$' then { found := s.flush, current := some none }
  else if c.isDigit then
    match s.current with
    | some d => { s with current := some (some (d.getD 0 * 10 + (c.toNat - 48))) }
    | none => s
  else { found := s.flush, current := none }

/-- The placeholders `$n` of a statement text, read left to right. -/
def placeholders (text : String) : List Nat :=
  (text.data.foldl PlaceholderScan.step { found := [], current := none }).flush

/-- The row that `UPDATE categories SET name = $1, color = $2 WHERE id = $3`
leaves in place of row `k`. -/
def recolor (name color id : String) (k : Category) : Category :=
  if k.id == id then { k with name := name, color := color } else k

/-! ## Theorems -/

theorem mathCeilDiv_least (total limit : Nat) (hl : 0 < limit) :
    (total : Int) ≤ mathCeilDiv total limit * limit ∧
      ∀ p : Int, (total : Int) ≤ p * limit → mathCeilDiv total limit ≤ p := by
  have hq : (0 : ℚ) < (limit : ℚ) := by exact_mod_cast hl
  constructor
  · have h := Int.le_ceil ((total : ℚ) / (limit : ℚ))
    rw [div_le_iff₀ hq] at h
    unfold mathCeilDiv
    exact_mod_cast h
  · intro p hp
    unfold mathCeilDiv
    rw [Int.ceil_le, div_le_iff₀ hq]
    exact_mod_cast hp

theorem mathCeilDiv_nonneg (total limit : Nat) : 0 ≤ mathCeilDiv total limit := by
  unfold mathCeilDiv
  exact Int.ceil_nonneg (by positivity)

theorem addEquals_eq (b : Builder) (col : String) (v : Option String) :
    b.addEquals col v =
      if truthy v then
        { conditions := b.conditions ++ [col ++ " = $" ++ toString b.paramIndex]
          params := b.params ++ [Val.str (v.getD "")]
          paramIndex := b.paramIndex + 1 }
      else b := by
  cases v with
  | none => simp [Builder.addEquals, truthy]
  | some s => simp [Builder.addEquals]

theorem addCategory_eq (b : Builder) (v : Option String) :
    b.addCategory v =
      if truthy v then
        { conditions := b.conditions ++
            ["EXISTS (\n        SELECT 1 FROM task_categories tc2 \n" ++
             "        WHERE tc2.task_id = t.id AND tc2.category_id = $" ++
             toString b.paramIndex ++ "\n      )"]
          params := b.params ++ [Val.str (v.getD "")]
          paramIndex := b.paramIndex + 1 }
      else b := by
  cases v with
  | none => simp [Builder.addCategory, truthy]
  | some s => simp [Builder.addCategory]

theorem addSearch_eq (b : Builder) (v : Option String) :
    b.addSearch v =
      if truthy v then
        { conditions := b.conditions ++
            ["(t.title ILIKE $" ++ toString b.paramIndex ++
             " OR t.description ILIKE $" ++ toString (b.paramIndex + 1) ++ ")"]
          params := b.params ++
            [Val.str ("%" ++ v.getD "" ++ "%"), Val.str ("%" ++ v.getD "" ++ "%")]
          paramIndex := b.paramIndex + 2 }
      else b := by
  cases v with
  | none => simp [Builder.addSearch, truthy]
  | some s => simp [Builder.addSearch]

theorem taskListFilters_text (q : TaskListQuery) :
    (taskListFilters q).conditions =
        (taskListFilters (shapeOf (truthy q.status) (truthy q.priority) (truthy q.user_id)
          (truthy q.category_id) (truthy q.search))).conditions ∧
      (taskListFilters q).paramIndex =
        (taskListFilters (shapeOf (truthy q.status) (truthy q.priority) (truthy q.user_id)
          (truthy q.category_id) (truthy q.search))).paramIndex := by
  simp only [taskListFilters, addEquals_eq, addCategory_eq, addSearch_eq, shapeOf]
  cases truthy q.status <;> cases truthy q.priority <;> cases truthy q.user_id <;>
    cases truthy q.category_id <;> cases truthy q.search <;> simp [truthy, Builder.init]

theorem taskListFilters_params (q : TaskListQuery) :
    (taskListFilters q).params = filterParams q := by
  simp only [taskListFilters, addEquals_eq, addCategory_eq, addSearch_eq, filterParams]
  cases truthy q.status <;> cases truthy q.priority <;> cases truthy q.user_id <;>
    cases truthy q.category_id <;> cases truthy q.search <;> simp [Builder.init]

theorem buildTaskList_text (q : TaskListQuery) :
    (buildTaskList q).query =
        (buildTaskList (shapeOf (truthy q.status) (truthy q.priority) (truthy q.user_id)
          (truthy q.category_id) (truthy q.search))).query ∧
      (buildTaskList q).countQuery =
        (buildTaskList (shapeOf (truthy q.status) (truthy q.priority) (truthy q.user_id)
          (truthy q.category_id) (truthy q.search))).countQuery := by
  have h := taskListFilters_text q
  simp only [buildTaskList, h.1, h.2, and_self]

theorem anyFilter_shape (a b c d e : Bool) :
    anyFilter (shapeOf a b c d e) = (a || b || c || d || e) := by
  cases a <;> cases b <;> cases c <;> cases d <;> cases e <;> rfl

theorem anyFilter_eq_shape (q : TaskListQuery) :
    anyFilter q = anyFilter (shapeOf (truthy q.status) (truthy q.priority) (truthy q.user_id)
      (truthy q.category_id) (truthy q.search)) := by
  rw [anyFilter_shape]; rfl

theorem intercalate_go_andTail (cs : List String) (acc : String) :
    String.intercalate.go acc " AND " cs = acc ++ andTail cs := by
  induction cs generalizing acc with
  | nil => simp [String.intercalate.go, andTail]
  | cons c cs ih => simp [String.intercalate.go, andTail, ih, String.append_assoc]

theorem where_joinAnd (c : String) (cs : List String) :
    " WHERE " ++ joinAnd (c :: cs) = whereClause (c :: cs) := by
  simp [joinAnd, String.intercalate, intercalate_go_andTail, whereClause, String.append_assoc]

theorem buildTaskList_where (q : TaskListQuery) :
    (buildTaskList q).query =
        taskListSelect ++ whereClause (taskListFilters q).conditions ++
          taskListTail (taskListFilters q).paramIndex ∧
      (buildTaskList q).countQuery =
        taskListCount ++ whereClause (taskListFilters q).conditions := by
  cases h : (taskListFilters q).conditions with
  | nil => simp [buildTaskList, whereClause, h]
  | cons c cs =>
    have hw := where_joinAnd c cs
    have hq : (buildTaskList q).query =
        taskListSelect ++ " WHERE " ++ joinAnd (c :: cs) ++
          taskListTail (taskListFilters q).paramIndex := by
      simp [buildTaskList, h]
    have hc : (buildTaskList q).countQuery = taskListCount ++ " WHERE " ++ joinAnd (c :: cs) := by
      simp [buildTaskList, h]
    rw [hq, hc, ← hw]
    simp only [String.append_assoc, and_self]

set_option maxRecDepth 100000 in
theorem shape_keywords : ∀ a b c d e : Bool,
    ((taskListFilters (shapeOf a b c d e)).conditions = [] ↔
        anyFilter (shapeOf a b c d e) = false) ∧
      (occursIn "WHERE" (buildTaskList (shapeOf a b c d e)).query ↔
        anyFilter (shapeOf a b c d e) = true) ∧
      (occursIn "WHERE" (buildTaskList (shapeOf a b c d e)).countQuery ↔
        anyFilter (shapeOf a b c d e) = true) ∧
      ¬ occursIn "LIMIT" (buildTaskList (shapeOf a b c d e)).countQuery ∧
      ¬ occursIn "OFFSET" (buildTaskList (shapeOf a b c d e)).countQuery ∧
      ¬ occursIn "GROUP BY" (buildTaskList (shapeOf a b c d e)).countQuery ∧
      ¬ occursIn "ORDER BY" (buildTaskList (shapeOf a b c d e)).countQuery := by
  decide!

/-! ### Stepping through a handler -/

theorem bind_run {α β : Type} (m : Handler α) (f : α → Handler β) (w : World) :
    (m >>= f) w =
      match m w with
      | (.ok a, w1) => f a w1
      | (.error e, w1) => (.error e, w1) := rfl

theorem pure_run {α : Type} (a : α) (w : World) : (pure a : Handler α) w = (.ok a, w) := rfl

theorem query_bind_elim {β : Type} (env : Env) (c : Conn) (st : Stmt) (f : List Row → Handler β)
    (w : World) (R : Except Exn β × World → Prop)
    (herr : ∀ e, R (.error e, w.step (Event.query c st) w.store))
    (hok : ∀ rows s, exec env c st w.store = .ok (rows, s) →
      R (f rows (w.step (Event.query c st) s))) :
    R ((query env c st >>= f) w) := by
  rw [bind_run]
  unfold query
  cases hn : (nextFault w.faults).1 with
  | some e => simpa [World.step] using herr e
  | none =>
    simp only []
    cases hx : exec env c st w.store with
    | error e => simpa [World.step] using herr e
    | ok p => 
      obtain ⟨rows, s⟩ := p
      simpa [World.step] using hok rows s hx

theorem query_elim (env : Env) (c : Conn) (st : Stmt)
    (w : World) (R : Except Exn (List Row) × World → Prop)
    (herr : ∀ e, R (.error e, w.step (Event.query c st) w.store))
    (hok : ∀ rows s, exec env c st w.store = .ok (rows, s) →
      R (.ok rows, w.step (Event.query c st) s)) :
    R (query env c st w) := by
  have := query_bind_elim env c st (fun rows => pure rows) w R herr (by simpa [pure_run] using hok)
  rw [bind_run] at this
  revert this
  cases query env c st w with
  | mk r w1 => cases r <;> simp [pure_run]


theorem createTaskFinish_good (env : Env) (db : Database) (t : Task) (rest : List Row)
    (w : World) (hw : w.store.committed = db) :
    TryGood db (createTaskFinish env (Row.task t :: rest) w) := by
  unfold createTaskFinish
  apply query_bind_elim
  · intro e; simp [TryGood, World.step, hw]
  · intro rows s _
    simp only [taskIdOf]
    rw [bind_run, pure_run]
    apply query_bind_elim
    · intro e; simp [TryGood, World.step, noReread, Event.isReread]
    · intro rows2 s2 _; simp [TryGood, pure_run]

theorem createTaskTry_good (env : Env) (body : TaskBody) (db : Database) (w : World)
    (hw : w.store = { committed := db, pending := none }) :
    TryGood db (createTaskTry env body w) := by
  unfold createTaskTry
  cases hv : taskSchema.validate env body with
  | error msg => simp [TryGood, pure_run, hw]
  | ok value =>
    simp only []
    apply query_bind_elim
    · intro e; simp [TryGood, World.step, hw]
    · intro rows s h
      simp [exec, hw] at h
      obtain ⟨-, rfl⟩ := h
      apply query_bind_elim
      · intro e; simp [TryGood, World.step]
      · intro rows1 s1 h1
        simp [exec, Store.view, World.step] at h1
        obtain ⟨-, rfl⟩ := h1
        split
        · apply query_bind_elim
          · intro e; simp [TryGood, World.step]
          · intro rows2 s2 h2
            simp [exec, World.step] at h2
            obtain ⟨-, rfl⟩ := h2
            simp [TryGood, pure_run, World.step]
        · apply query_bind_elim
          · intro e; simp [TryGood, World.step]
          · intro rows2 s2 h2
            simp only [exec, World.step, Store.view, Option.getD_some, Store.write] at h2
            split at h2
            · cases h2
            · cases h2
              rcases value.category_ids with _ | _ | ⟨c, cs⟩
              · exact createTaskFinish_good _ _ _ _ _ rfl
              · exact createTaskFinish_good _ _ _ _ _ rfl
              · simp only []
                apply query_bind_elim
                · intro e; simp [TryGood, World.step]
                · intro rows3 s3 h3
                  simp [exec, World.step] at h3
                  obtain ⟨-, rfl⟩ := h3
                  split
                  · apply query_bind_elim
                    · intro e; simp [TryGood, World.step]
                    · intro rows4 s4 h4
                      simp [exec, World.step] at h4
                      obtain ⟨-, rfl⟩ := h4
                      simp [TryGood, pure_run, World.step]
                  · simp only [taskIdOf]
                    rw [bind_run, pure_run]
                    apply query_bind_elim
                    · intro e; simp [TryGood, World.step]
                    · intro rows4 s4 h4
                      apply createTaskFinish_good
                      simp only [exec, World.step, Store.view, Option.getD_some, Store.write] at h4
                      split at h4
                      · cases h4
                      · cases h4; rfl

theorem updateTaskFinish_good (env : Env) (db : Database) (id : String) (w : World)
    (hw : w.store.committed = db) :
    TryGood db (updateTaskFinish env id w) := by
  unfold updateTaskFinish
  apply query_bind_elim
  · intro e; simp [TryGood, World.step, hw]
  · intro rows s _
    apply query_bind_elim
    · intro e; simp [TryGood, World.step, noReread, Event.isReread]
    · intro rows2 s2 _; simp [TryGood, pure_run]

theorem updateTaskTry_good (env : Env) (id : String) (body : TaskUpdateBody) (db : Database)
    (w : World) (hw : w.store = { committed := db, pending := none }) :
    TryGood db (updateTaskTry env id body w) := by
  unfold updateTaskTry
  cases hv : updateTaskSchema.validate env body with
  | error msg => simp [TryGood, pure_run, hw]
  | ok value =>
    simp only []
    apply query_bind_elim
    · intro e; simp [TryGood, World.step, hw]
    · intro rows s h
      simp [exec, hw] at h
      obtain ⟨-, rfl⟩ := h
      apply query_bind_elim
      · intro e; simp [TryGood, World.step]
      · intro rows1 s1 h1
        simp [exec, Store.view, World.step] at h1
        obtain ⟨-, rfl⟩ := h1
        split
        · apply query_bind_elim
          · intro e; simp [TryGood, World.step]
          · intro rows2 s2 h2
            simp [exec, World.step] at h2
            obtain ⟨-, rfl⟩ := h2
            simp [TryGood, pure_run, World.step]
        · apply query_bind_elim
          · intro e; simp [TryGood, World.step]
          · intro rows2 s2 h2
            simp only [exec, World.step, Store.view, Option.getD_some, Store.write] at h2
            cases h2
            rcases value.category_ids with _ | ids
            · exact updateTaskFinish_good _ _ _ _ rfl
            · simp only []
              apply query_bind_elim
              · intro e; simp [TryGood, World.step]
              · intro rows3 s3 h3
                simp only [exec, World.step, Store.view, Option.getD_some, Store.write] at h3
                cases h3
                split
                · apply query_bind_elim
                  · intro e; simp [TryGood, World.step]
                  · intro rows4 s4 h4
                    simp [exec, World.step] at h4
                    obtain ⟨-, rfl⟩ := h4
                    split
                    · apply query_bind_elim
                      · intro e; simp [TryGood, World.step]
                      · intro rows5 s5 h5
                        simp [exec, World.step] at h5
                        obtain ⟨-, rfl⟩ := h5
                        simp [TryGood, pure_run, World.step]
                    · apply query_bind_elim
                      · intro e; simp [TryGood, World.step]
                      · intro rows5 s5 h5
                        apply updateTaskFinish_good
                        simp only [exec, World.step, Store.view, Option.getD_some,
                          Store.write] at h5
                        split at h5
                        · cases h5
                        · cases h5; rfl
                · exact updateTaskFinish_good _ _ _ _ rfl

theorem query_result (env : Env) (c : Conn) (st : Stmt) (w : World) :
    ∃ r s, query env c st w = (r, w.step (Event.query c st) s) ∧
      match r with
      | .error _ => s = w.store
      | .ok rows => exec env c st w.store = .ok (rows, s) := by
  apply query_elim env c st w
    (fun p => ∃ r s, p = (r, w.step (Event.query c st) s) ∧
      match r with
      | .error _ => s = w.store
      | .ok rows => exec env c st w.store = .ok (rows, s))
  · intro e; exact ⟨.error e, w.store, rfl, rfl⟩
  · intro rows s h; exact ⟨.ok rows, s, rfl, h⟩

theorem tryCatchRollback_good (env : Env) (failure : String) (body : Handler Response)
    (db : Database) (w : World) (h : TryGood db (body w)) (resp : Response)
    (hresp : (tryCatchRollback env failure body w).1 = some resp)
    (hstatus : 400 ≤ resp.status)
    (hlog : noReread (tryCatchRollback env failure body w).2.log = true) :
    (tryCatchRollback env failure body w).2.store.committed = db := by
  unfold tryCatchRollback at hresp hlog ⊢
  rcases hb : body w with ⟨r | r, w1⟩
  · rw [hb] at h hresp hlog
    simp only [TryGood] at h
    simp only [] at hresp hlog ⊢
    obtain ⟨r2, s, hq, hs⟩ := query_result env .client .rollback w1
    rw [hq] at hresp hlog ⊢
    cases r2 with
    | error e => simp at hresp
    | ok rows =>
      simp [exec] at hs
      obtain ⟨-, rfl⟩ := hs
      simp only [release, World.step, noReread, List.all_append, Bool.and_eq_true] at hlog ⊢
      exact h (by simpa [noReread] using hlog.1.1)
  · rw [hb] at h hresp hlog
    simp only [TryGood] at h
    simp only [release, Option.some.injEq] at hresp hlog ⊢
    subst hresp
    apply h hstatus
    simp only [noReread, List.all_append, Bool.and_eq_true] at hlog ⊢
    exact hlog.1

theorem withClient_good (env : Env) (failure : String) (body : Handler Response)
    (db : Database) (faults : List (Option Exn))
    (h : ∀ w : World, w.store = { committed := db, pending := none } → TryGood db (body w))
    (resp : Response)
    (hresp : (withClient env failure body (World.start db faults)).1 = some resp)
    (hstatus : 400 ≤ resp.status)
    (hlog : noReread (withClient env failure body (World.start db faults)).2.log = true) :
    (withClient env failure body (World.start db faults)).2.store.committed = db := by
  unfold withClient connect at hresp hlog ⊢
  cases hn : (nextFault (World.start db faults).faults).1 with
  | some e => simp [hn] at hresp
  | none =>
    simp only [hn] at hresp hlog ⊢
    exact tryCatchRollback_good env failure body db _ (h _ rfl) resp hresp hstatus hlog

theorem users_filter_nil (db : Database) (id : String) (h : ∀ u ∈ db.users, u.id ≠ id) :
    db.users.filter (·.id == id) = [] := by
  simp [List.filter_eq_nil_iff]; exact h

theorem createTaskTry_unknown_user (env : Env) (body : TaskBody) (value : TaskValue)
    (db : Database) (hvalid : taskSchema.validate env body = .ok value)
    (huser : ∀ u ∈ db.users, u.id ≠ value.user_id) (w : World)
    (hw : w.store = { committed := db, pending := none }) (hl : noTaskInsert w.log = true) :
    (createTaskTry env body w).2.store.committed = db ∧
      noTaskInsert (createTaskTry env body w).2.log = true := by
  have hf := users_filter_nil db value.user_id huser
  unfold createTaskTry
  simp only [hvalid]
  apply query_bind_elim env .client .begin _ w
    (fun p => p.2.store.committed = db ∧ noTaskInsert p.2.log = true)
  · intro e; simpa [World.step, hw, noTaskInsert, Event.isTaskInsert] using hl
  · intro rows s h
    simp [exec, hw] at h
    obtain ⟨-, rfl⟩ := h
    apply query_bind_elim env .client _ _ _
      (fun p => p.2.store.committed = db ∧ noTaskInsert p.2.log = true)
    · intro e; simpa [World.step, hw, noTaskInsert, Event.isTaskInsert] using hl
    · intro rows1 s1 h1
      simp [exec, Store.view, World.step, hf] at h1
      obtain ⟨rfl, rfl⟩ := h1
      simp only [List.length_nil, if_true]
      apply query_bind_elim env .client _ _ _
        (fun p => p.2.store.committed = db ∧ noTaskInsert p.2.log = true)
      · intro e; simpa [World.step, hw, noTaskInsert, Event.isTaskInsert] using hl
      · intro rows2 s2 h2
        simp [exec, World.step] at h2
        obtain ⟨-, rfl⟩ := h2
        simpa [pure_run, World.step, noTaskInsert, Event.isTaskInsert] using hl

theorem category_check_short (cats : List Category) (ids : List String) (c : String)
    (hwf : (cats.map (·.id)).Nodup) (hc : c ∈ ids) (hmiss : ∀ k ∈ cats, k.id ≠ c) :
    (cats.filter fun k => ids.contains k.id).length < ids.length := by
  have hsub : ((cats.filter fun k => ids.contains k.id).map (·.id)).Sublist (cats.map (·.id)) :=
    List.Sublist.map _ (List.filter_sublist _)
  have hnd : ((cats.filter fun k => ids.contains k.id).map (·.id)).Nodup := hwf.sublist hsub
  have hnot : c ∉ (cats.filter fun k => ids.contains k.id).map (·.id) := by
    intro hmem
    obtain ⟨k, hk, hkc⟩ := List.mem_map.1 hmem
    exact hmiss k (List.mem_of_mem_filter hk) hkc
  have hnd2 : (c :: (cats.filter fun k => ids.contains k.id).map (·.id)).Nodup :=
    List.nodup_cons.2 ⟨hnot, hnd⟩
  have hss : (c :: (cats.filter fun k => ids.contains k.id).map (·.id)) ⊆ ids := by
    intro x hx
    rcases List.mem_cons.1 hx with rfl | hx
    · exact hc
    · obtain ⟨k, hk, rfl⟩ := List.mem_map.1 hx
      have := (List.mem_filter.1 hk).2
      simpa using this
  have := (List.subperm_of_subset hnd2 hss).length_le
  simp only [List.length_cons, List.length_map] at this
  omega

/-! ## Pagination and the task list query builder -/

/-- C1. For each of the four list handlers, a limit greater than zero (the
default 10 included) and any total, `pagination.pages` is the ceiling of
`total / limit`: it is the least integer `p` with `p * limit ≥ total`, and it
is not negative. The page number plays no part in it. -/
theorem pagination_pages_is_ceiling (page limit : Option Nat) (total : Nat)
    (hlimit : 0 < limit.getD 10) :
    (tasksPagination page limit total).pages = ⌈((total : ℚ) / ((limit.getD 10 : Nat) : ℚ))⌉ ∧
      IsCeilingOf (tasksPagination page limit total).pages total (limit.getD 10) ∧
      IsCeilingOf (usersPagination page limit total).pages total (limit.getD 10) ∧
      IsCeilingOf (userTasksPagination page limit total).pages total (limit.getD 10) ∧
      IsCeilingOf (categoryTasksPagination page limit total).pages total (limit.getD 10) ∧
      0 ≤ (tasksPagination page limit total).pages := by
  have h := mathCeilDiv_least total (limit.getD 10) hlimit
  exact ⟨rfl, h, h, h, h, mathCeilDiv_nonneg _ _⟩

/-- Witness of C1: page 2, limit 10, total 25 gives three pages. -/
theorem pagination_pages_is_ceiling_witness :
    0 < (some 10 : Option Nat).getD 10 ∧ (tasksPagination (some 2) (some 10) 25).pages = 3 := by
  refine ⟨by decide, ?_⟩
  have h := (pagination_pages_is_ceiling (some 2) (some 10) 25 (by decide)).2.1
  have h1 := h.1
  have h2 := h.2 3 (by decide)
  simp only [Option.getD_some] at h1
  omega

/-- C2. For every combination of filters, the parameter list of the main query
is the filter parameters, in the order status, priority, user_id, category_id,
search pattern, search pattern, followed by exactly `[limit, offset]`, and the
parameter list of the count query, `params.slice(0, -2)`, is exactly the filter
parameters. -/
theorem taskList_params_layout (q : TaskListQuery) :
    (buildTaskList q).params =
        filterParams q ++
          [Val.num (q.limit.getD 10), Val.num (offsetOf (q.page.getD 1) (q.limit.getD 10))] ∧
      (buildTaskList q).countParams = filterParams q := by
  simp [buildTaskList, taskListFilters_params, sliceDropLast2]

/-- C3. For every combination of filters the main query and the count query
carry the same WHERE clause, built from the same list of conditions: no clause
at all (and no `WHERE` anywhere in either text) exactly when no filter is
supplied, otherwise ` WHERE ` followed by the conditions with ` AND ` between
each two, as `whereClause` spells it out. The count query contains none of
`LIMIT`, `OFFSET`, `GROUP BY`, `ORDER BY`. -/
theorem taskList_where_shared (q : TaskListQuery) :
    (buildTaskList q).query =
        taskListSelect ++ whereClause (taskListFilters q).conditions ++
          taskListTail (taskListFilters q).paramIndex ∧
      (buildTaskList q).countQuery =
        taskListCount ++ whereClause (taskListFilters q).conditions ∧
      ((taskListFilters q).conditions = [] ↔ anyFilter q = false) ∧
      (occursIn "WHERE" (buildTaskList q).query ↔ anyFilter q = true) ∧
      (occursIn "WHERE" (buildTaskList q).countQuery ↔ anyFilter q = true) ∧
      ¬ occursIn "LIMIT" (buildTaskList q).countQuery ∧
      ¬ occursIn "OFFSET" (buildTaskList q).countQuery ∧
      ¬ occursIn "GROUP BY" (buildTaskList q).countQuery ∧
      ¬ occursIn "ORDER BY" (buildTaskList q).countQuery := by
  have hw := buildTaskList_where q
  have ht := buildTaskList_text q
  have hf := (taskListFilters_text q).1
  have hk := shape_keywords (truthy q.status) (truthy q.priority) (truthy q.user_id)
    (truthy q.category_id) (truthy q.search)
  rw [← anyFilter_eq_shape, ← ht.1, ← ht.2, ← hf] at hk
  exact ⟨hw.1, hw.2, hk⟩

/-! ## Task and category writes -/

/-- C4. For a schema-valid body (whatever the library's format checks accept)
whose `user_id` matches no row of `users`, `POST /api/tasks` run without faults answers 400 `User not found` after
`BEGIN`, the user lookup and `ROLLBACK`, with the store as before; and under
every schedule of store faults the committed contents stay as before and no
`INSERT` into `tasks` or `task_categories` is sent. -/
theorem createTask_unknown_user (env : Env) (body : TaskBody) (value : TaskValue)
    (db : Database) (hvalid : taskSchema.validate env body = .ok value)
    (huser : ∀ u ∈ db.users, u.id ≠ value.user_id) :
    createTask env body (World.start db []) =
        (some { status := 400, body := .error "User not found" },
          { store := { committed := db, pending := none }, faults := []
            log := [Event.connect, Event.query .client .begin,
              Event.query .client (.selectUserId value.user_id),
              Event.query .client .rollback, Event.release] }) ∧
      ∀ faults : List (Option Exn),
        (createTask env body (World.start db faults)).2.store.committed = db ∧
        noTaskInsert (createTask env body (World.start db faults)).2.log = true := by
  have hf := users_filter_nil db value.user_id huser
  constructor
  · simp [createTask, withClient, connect, nextFault, World.start, tryCatchRollback, createTaskTry,
      hvalid, bind_run, pure_run, query, exec, Store.view, hf, release]
  · intro faults
    unfold createTask withClient connect
    cases hn : (nextFault (World.start db faults).faults).1 with
    | some e => simp [World.start, noTaskInsert, Event.isTaskInsert]
    | none =>
      simp only []
      have h := createTaskTry_unknown_user env body value db hvalid huser
        { World.start db faults with
          log := (World.start db faults).log ++ [Event.connect]
          faults := (nextFault (World.start db faults).faults).2 } rfl
        (by simp [World.start, noTaskInsert, Event.isTaskInsert])
      unfold tryCatchRollback
      revert h
      rcases createTaskTry env body _ with ⟨r | r, w1⟩
      · intro h
        simp only [] at h ⊢
        obtain ⟨r2, s, hq, hs⟩ := query_result env .client .rollback w1
        rw [hq]
        cases r2 with
        | error e =>
          simp only [] at hs
          subst hs
          simpa [release, World.step, noTaskInsert, Event.isTaskInsert] using h
        | ok rows =>
          simp [exec] at hs
          obtain ⟨-, rfl⟩ := hs
          simpa [release, World.step, noTaskInsert, Event.isTaskInsert] using h
      · intro h
        simpa [release, World.step, noTaskInsert, Event.isTaskInsert] using h

/-- C5. When the `category_ids` of a schema-valid body (whatever the library's
format checks accept) contains an id that matches no row of `categories`
(whose ids are unique, the generated task id being fresh), task create answers
400 and task update answers 400 for an existing task (404 for an unknown one);
in each case the transaction is rolled back and the store is exactly as before:
no `tasks` row, no `task_categories` row, core fields and previous associations
untouched. -/
theorem task_write_missing_category (env : Env) (db : Database) (ids : List String) (c : String)
    (body : TaskBody) (value : TaskValue) (id : String) (ubody uvalue : TaskUpdateBody)
    (hkeys : (db.categories.map (·.id)).Nodup)
    (hfresh : ∀ t ∈ db.tasks, t.id ≠ env.newId)
    (hc : c ∈ ids) (hmiss : ∀ k ∈ db.categories, k.id ≠ c)
    (hvalid : taskSchema.validate env body = .ok value) (hids : value.category_ids = some ids)
    (huvalid : updateTaskSchema.validate env ubody = .ok uvalue)
    (huids : uvalue.category_ids = some ids) :
    statusOf (createTask env body (World.start db [])) = some 400 ∧
      (createTask env body (World.start db [])).2.store = { committed := db, pending := none } ∧
      statusOf (updateTask env id ubody (World.start db [])) =
        some (if db.tasks.any (·.id == id) then 400 else 404) ∧
      (updateTask env id ubody (World.start db [])).2.store =
        { committed := db, pending := none } := by
  have hshort := category_check_short db.categories ids c hkeys hc hmiss
  have hne : ids ≠ [] := List.ne_nil_of_mem hc
  obtain ⟨i, is, rfl⟩ := List.exists_cons_of_ne_nil hne
  have hnew : (db.tasks.any fun t => t.id == env.newId) = false := by
    simp [List.any_eq_false]; exact hfresh
  have hlen := Nat.ne_of_lt hshort
  simp only [List.contains_cons, List.length_cons, List.elem_eq_mem, beq_iff_eq] at hlen
  have hlen2 : ¬ (List.filter (fun k => decide (k.id = i) || decide (k.id ∈ is))
      db.categories).length = is.length + 1 := by
    simpa using hlen
  refine ⟨?_, ?_, ?_, ?_⟩
  · by_cases hu : db.users.filter (·.id == value.user_id) = []
    · simp [statusOf, createTask, withClient, connect, nextFault, World.start, tryCatchRollback,
        createTaskTry, hvalid, bind_run, pure_run, query, exec, Store.view, hu, release]
    · simp [statusOf, createTask, withClient, connect, nextFault, World.start, tryCatchRollback,
        createTaskTry, hvalid, bind_run, pure_run, query, exec, Store.view, hu, release, hids,
        hnew, Store.write, hlen2]
  · by_cases hu : db.users.filter (·.id == value.user_id) = []
    · simp [statusOf, createTask, withClient, connect, nextFault, World.start, tryCatchRollback,
        createTaskTry, hvalid, bind_run, pure_run, query, exec, Store.view, hu, release]
    · simp [statusOf, createTask, withClient, connect, nextFault, World.start, tryCatchRollback,
        createTaskTry, hvalid, bind_run, pure_run, query, exec, Store.view, hu, release, hids,
        hnew, Store.write, hlen2]
  · by_cases ht : db.tasks.filter (·.id == id) = []
    · have hany : (db.tasks.any fun t => t.id == id) = false := by
        simpa [List.filter_eq_nil_iff, List.any_eq_false] using ht
      simp [statusOf, updateTask, withClient, connect, nextFault, World.start, tryCatchRollback,
        updateTaskTry, huvalid, bind_run, pure_run, query, exec, Store.view, ht, release, hany]
    · have hany : (db.tasks.any fun t => t.id == id) = true := by
        simpa [List.filter_eq_nil_iff, List.any_eq_true] using ht
      simp [statusOf, updateTask, withClient, connect, nextFault, World.start, tryCatchRollback,
        updateTaskTry, huvalid, bind_run, pure_run, query, exec, Store.view, ht, release, huids,
        Store.write, hlen2, hany]
  · by_cases ht : db.tasks.filter (·.id == id) = []
    · simp [statusOf, updateTask, withClient, connect, nextFault, World.start, tryCatchRollback,
        updateTaskTry, huvalid, bind_run, pure_run, query, exec, Store.view, ht, release]
    · simp [statusOf, updateTask, withClient, connect, nextFault, World.start, tryCatchRollback,
        updateTaskTry, huvalid, bind_run, pure_run, query, exec, Store.view, ht, release, huids,
        Store.write, hlen2]

set_option maxRecDepth 100000 in
/-- C6 at the failing input. Every id of the list `[c, c]` exists in
`categories`, yet `POST /api/tasks` rejects the request with
`One or more categories not found`: the lookup returns one row per stored
category, and the handler compares that count with the length of the list. -/
theorem createTask_repeated_category_rejected :
    (∀ c ∈ [usedCategoryId, usedCategoryId], categoryExists sampleDb c = true) ∧
      (createTask sampleEnv
          { sampleTaskBody with category_ids := some [usedCategoryId, usedCategoryId] }
          (World.start sampleDb [])).1 =
        some { status := 400, body := .error "One or more categories not found" } := by
  decide!

/-- C7. For an existing task and a schema-valid update body (whatever the
library's format checks accept) whose `category_ids` is the empty list, `PUT /api/tasks/:id` run without faults answers 200 after exactly
`BEGIN`, the task lookup, the `UPDATE`, the `DELETE` of the task's
associations, `COMMIT` and the re-read: no existence check on `categories` and
no `INSERT` is sent. Afterwards the task has no association and the rows of
other tasks are those from before. -/
theorem updateTask_empty_categories (env : Env) (db : Database) (id : String)
    (body value : TaskUpdateBody)
    (hvalid : updateTaskSchema.validate env body = .ok value)
    (hids : value.category_ids = some [])
    (hexists : ∃ t ∈ db.tasks, t.id = id) :
    statusOf (updateTask env id body (World.start db [])) = some 200 ∧
      (updateTask env id body (World.start db [])).2.log =
        [Event.connect, Event.query .client .begin, Event.query .client (.selectTaskId id),
          Event.query .client (.updateTask (taskSets value) id),
          Event.query .client (.deleteTaskCategories id), Event.query .client .commit,
          Event.query .pool (.selectTaskJoined id), Event.release] ∧
      (updateTask env id body (World.start db [])).2.store.pending = none ∧
      (updateTask env id body (World.start db [])).2.store.committed.task_categories =
        db.task_categories.filter (·.task_id != id) ∧
      (updateTask env id body (World.start db [])).2.store.committed.task_categories.filter
        (·.task_id == id) = [] ∧
      (updateTask env id body (World.start db [])).2.store.committed.task_categories.filter
        (·.task_id != id) = db.task_categories.filter (·.task_id != id) := by
  have ht : db.tasks.filter (·.id == id) ≠ [] := by
    obtain ⟨t, ht, rfl⟩ := hexists
    intro h
    have := List.filter_eq_nil_iff.1 h t ht
    simp at this
  have hrun : updateTask env id body (World.start db []) =
      (some { status := 200, body := .row (joinedRows
          { db with
            tasks := db.tasks.map (touchTask env (taskSets value) id),
            task_categories := db.task_categories.filter (·.task_id != id) } id).head? },
        { store :=
            { committed :=
                { db with
                  tasks := db.tasks.map (touchTask env (taskSets value) id),
                  task_categories := db.task_categories.filter (·.task_id != id) },
              pending := none },
          faults := [],
          log := [Event.connect, Event.query .client .begin, Event.query .client (.selectTaskId id),
            Event.query .client (.updateTask (taskSets value) id),
            Event.query .client (.deleteTaskCategories id), Event.query .client .commit,
            Event.query .pool (.selectTaskJoined id), Event.release] }) := by
    simp [updateTask, withClient, connect, nextFault, World.start, tryCatchRollback,
      updateTaskTry, hvalid, bind_run, pure_run, query, exec, Store.view, ht, release, hids,
      Store.write, updateTaskFinish]
  rw [hrun]
  refine ⟨rfl, rfl, rfl, rfl, ?_, ?_⟩
  · simp [List.filter_filter]
  · simp [List.filter_filter]

/-- C8. Run without faults, `DELETE /api/categories/:id` answers 404 when the
category does not exist, otherwise 400 when at least one `task_categories` row
references it and 204 when none does; the store changes only in the last case,
where the category is removed. A stored category with that id remains exactly
when the delete was refused, and a following `GET /api/categories/:id` answers
200 in that case and 404 otherwise. -/
theorem deleteCategory_guard (env : Env) (db : Database) (id : String) :
    statusOf (deleteCategory env id (World.start db [])) =
        some (if !categoryExists db id then 404 else if usageCount db id > 0 then 400 else 204) ∧
      (deleteCategory env id (World.start db [])).2.store =
        { committed :=
            if categoryExists db id && usageCount db id == 0 then db.withoutCategory id else db,
          pending := none } ∧
      categoryExists (deleteCategory env id (World.start db [])).2.store.committed id =
        (categoryExists db id && decide (usageCount db id > 0)) ∧
      statusOf (getCategory env id
          { (deleteCategory env id (World.start db [])).2 with faults := [] }) =
        some (if categoryExists db id && decide (usageCount db id > 0) then 200 else 404) := by
  by_cases hex : db.categories.filter (·.id == id) = []
  · have hE : categoryExists db id = false := by
      simpa [categoryExists, List.filter_eq_nil_iff, List.any_eq_false] using hex
    simp [statusOf, deleteCategory, withClient, connect, nextFault, World.start,
      tryCatchRollback, deleteCategoryTry, bind_run, pure_run, query, exec, Store.view, hex,
      release, hE, getCategory, getCategoryTry]
  · have hE : categoryExists db id = true := by
      simpa [categoryExists, List.filter_eq_nil_iff, List.any_eq_true] using hex
    by_cases hu : usageCount db id = 0
    · have hu2 : (db.task_categories.filter (·.category_id == id)).length = 0 := hu
      have hgone : (db.categories.filter (·.id != id)).filter (·.id == id) = [] := by
        simp [List.filter_filter]
      have hgone2 : categoryExists
          { users := db.users, tasks := db.tasks,
            categories := List.filter (fun x => x.id != id) db.categories,
            task_categories := db.task_categories } id = false := by
        simp [categoryExists, List.any_eq_false]
      simp [statusOf, deleteCategory, withClient, connect, nextFault, World.start,
        tryCatchRollback, deleteCategoryTry, bind_run, pure_run, query, exec, Store.view, hex,
        release, hE, hu, hu2, countOf, Store.write, getCategory, getCategoryTry, hgone, hgone2,
        Database.withoutCategory]
    · have hu2 : ¬ (db.task_categories.filter (·.category_id == id)).length = 0 := hu
      have hpos : 0 < usageCount db id := Nat.pos_of_ne_zero hu
      have hpos2 : 0 < (db.task_categories.filter (·.category_id == id)).length := hpos
      simp [statusOf, deleteCategory, withClient, connect, nextFault, World.start,
        tryCatchRollback, deleteCategoryTry, bind_run, pure_run, query, exec, Store.view, hex,
        release, hE, hu, hu2, hpos, hpos2, countOf, Store.write, getCategory, getCategoryTry]

/-- C9 as amended. Task create and task update are atomic over the steps up to
and including `COMMIT`: under every schedule of store faults, when the request
answers with an error status and the re-read after `COMMIT` was not reached,
the committed contents of the store are those from before the request. -/
theorem task_write_atomic_until_commit (env : Env) (req : WriteRequest) (db : Database)
    (faults : List (Option Exn)) (resp : Response)
    (htask : req.isTask = true)
    (hresp : (req.run env (World.start db faults)).1 = some resp)
    (hstatus : 400 ≤ resp.status)
    (hlog : noReread (req.run env (World.start db faults)).2.log = true) :
    (req.run env (World.start db faults)).2.store.committed = db := by
  cases req with
  | createTask body =>
    exact withClient_good env _ _ db faults
      (fun w hw => createTaskTry_good env body db w hw) resp hresp hstatus hlog
  | updateTask id body =>
    exact withClient_good env _ _ db faults
      (fun w hw => updateTaskTry_good env id body db w hw) resp hresp hstatus hlog
  | _ => simp [WriteRequest.isTask] at htask

/-- C10 as amended. A create or update request whose body fails its schema
(whatever the library's format checks reject) is answered 400 and no statement is sent to the store, whatever faults are ahead,
and the store is unchanged. The user and category handlers make no call to the
store at all; the two task handlers acquire a client from the pool before they
validate and release it again. -/
theorem invalid_body_rejected_without_query (env : Env) (req : WriteRequest) (db : Database)
    (faults : List (Option Exn)) (hinvalid : req.invalid env = true) :
    statusOf (req.run env (World.start db [])) = some 400 ∧
      (req.run env (World.start db [])).2.log =
        (if req.isTask then [Event.connect, Event.release] else []) ∧
      (req.run env (World.start db faults)).2.log.all (fun e => !e.isQuery) = true ∧
      (req.run env (World.start db faults)).2.store = { committed := db, pending := none } := by
  cases req with
  | createUser body =>
    cases hv : userSchema.validate env body with
    | ok v => simp [WriteRequest.invalid, hv, Except.isOk, Except.toBool] at hinvalid
    | error msg =>
      simp [WriteRequest.run, WriteRequest.isTask, statusOf, createUser, createUserTry, hv,
        pure_run, World.start]
  | updateUser id body =>
    cases hv : updateUserSchema.validate env body with
    | ok v => simp [WriteRequest.invalid, hv, Except.isOk, Except.toBool] at hinvalid
    | error msg =>
      simp [WriteRequest.run, WriteRequest.isTask, statusOf, updateUser, updateUserTry, hv,
        pure_run, World.start]
  | createCategory body =>
    cases hv : categorySchema.validate body with
    | ok v => simp [WriteRequest.invalid, hv, Except.isOk, Except.toBool] at hinvalid
    | error msg =>
      simp [WriteRequest.run, WriteRequest.isTask, statusOf, createCategory, createCategoryTry,
        hv, pure_run, World.start]
  | updateCategory id body =>
    cases hv : categorySchema.validate body with
    | ok v => simp [WriteRequest.invalid, hv, Except.isOk, Except.toBool] at hinvalid
    | error msg =>
      simp [WriteRequest.run, WriteRequest.isTask, statusOf, updateCategory, updateCategoryTry,
        hv, pure_run, World.start]
  | createTask body =>
    cases hv : taskSchema.validate env body with
    | ok v => simp [WriteRequest.invalid, hv, Except.isOk, Except.toBool] at hinvalid
    | error msg =>
      rcases faults with _ | ⟨_ | e, faults⟩ <;>
      simp [WriteRequest.run, WriteRequest.isTask, statusOf, createTask, createTaskTry, hv,
        pure_run, World.start, withClient, connect, nextFault, tryCatchRollback, release,
        Event.isQuery]
  | updateTask id body =>
    cases hv : updateTaskSchema.validate env body with
    | ok v => simp [WriteRequest.invalid, hv, Except.isOk, Except.toBool] at hinvalid
    | error msg =>
      rcases faults with _ | ⟨_ | e, faults⟩ <;>
      simp [WriteRequest.run, WriteRequest.isTask, statusOf, updateTask, updateTaskTry, hv,
        pure_run, World.start, withClient, connect, nextFault, tryCatchRollback, release,
        Event.isQuery]

set_option maxRecDepth 100000 in
/-- Counterexample to C10. For the invalid task body of the test suite,
`POST /api/tasks` answers 400 after it has acquired a client from the pool. -/
theorem createTask_invalid_body_acquires_client :
    (WriteRequest.createTask invalidTaskBody).invalid sampleEnv = true ∧
      (createTask sampleEnv invalidTaskBody (World.start sampleDb [])) =
        (some { status := 400, body := .error "\"title\" is not allowed to be empty" },
          { store := { committed := sampleDb, pending := none }, faults := [],
            log := [Event.connect, Event.release] }) := by
  decide!

set_option maxRecDepth 100000 in
/-- Counterexample to C9. The joined re-read runs after `COMMIT`: when it
fails, `POST /api/tasks` answers 500 and the inserted task stays in the store. -/
theorem createTask_reread_failure_persists :
    statusOf (createTask sampleEnv sampleTaskBody
        (World.start sampleDb [none, none, none, none, none, some {}])) = some 500 ∧
      (createTask sampleEnv sampleTaskBody
        (World.start sampleDb [none, none, none, none, none, some {}])).2.store.committed
        ≠ sampleDb := by
  decide!

/-! ## Witnesses -/

/-- Witness of C4: the sample task body with a user id that matches no row. -/
theorem createTask_unknown_user_witness :
    taskSchema.validate sampleEnv { sampleTaskBody with user_id := some unknownId } =
        .ok { sampleTaskValue with user_id := unknownId } ∧
      statusOf (createTask sampleEnv { sampleTaskBody with user_id := some unknownId }
        (World.start sampleDb [])) = some 400 :=
  ⟨rfl, by
    rw [(createTask_unknown_user sampleEnv { sampleTaskBody with user_id := some unknownId }
      { sampleTaskValue with user_id := unknownId } sampleDb rfl (by decide)).1]
    rfl⟩

/-- Witness of C5: a list with one stored and one unknown category id. -/
theorem task_write_missing_category_witness :
    unknownId ∈ [usedCategoryId, unknownId] ∧
      categoryExists sampleDb unknownId = false ∧
      statusOf (createTask sampleEnv
        { sampleTaskBody with category_ids := some [usedCategoryId, unknownId] }
        (World.start sampleDb [])) = some 400 ∧
      (updateTask sampleEnv sampleTaskId { category_ids := some [usedCategoryId, unknownId] }
        (World.start sampleDb [])).2.store = { committed := sampleDb, pending := none } :=
  have h := task_write_missing_category sampleEnv sampleDb [usedCategoryId, unknownId] unknownId
    { sampleTaskBody with category_ids := some [usedCategoryId, unknownId] }
    { sampleTaskValue with category_ids := some [usedCategoryId, unknownId] }
    sampleTaskId { category_ids := some [usedCategoryId, unknownId] }
    { category_ids := some [usedCategoryId, unknownId] }
    (by decide) (by decide) (by decide) (by decide) rfl rfl rfl rfl
  ⟨by decide, by decide, h.1, h.2.2.2⟩

/-- Witness of C7: the sample task, which has one association, updated with an
empty list. -/
theorem updateTask_empty_categories_witness :
    updateTaskSchema.validate sampleEnv { category_ids := some [] } =
        .ok { category_ids := some [] } ∧
      (∃ t ∈ sampleDb.tasks, t.id = sampleTaskId) ∧
      (updateTask sampleEnv sampleTaskId { category_ids := some [] }
        (World.start sampleDb [])).2.store.committed.task_categories.filter
          (·.task_id == sampleTaskId) = [] :=
  ⟨rfl, by decide,
    (updateTask_empty_categories sampleEnv sampleDb sampleTaskId { category_ids := some [] }
      { category_ids := some [] } rfl rfl (by decide)).2.2.2.2.1⟩

set_option maxRecDepth 100000 in
/-- Witness of C9 as amended: the `INSERT` of task create fails, the request
answers 500 and the store is as before. -/
theorem task_write_atomic_until_commit_witness :
    (WriteRequest.createTask sampleTaskBody).isTask = true ∧
      ((WriteRequest.createTask sampleTaskBody).run sampleEnv
        (World.start sampleDb [none, none, none, some {}])).2.store.committed = sampleDb :=
  ⟨rfl, task_write_atomic_until_commit sampleEnv (.createTask sampleTaskBody) sampleDb
    [none, none, none, some {}] { status := 500, body := .error "Failed to create task" }
    rfl (by decide!) (by decide) (by decide!)⟩

set_option maxRecDepth 100000 in
/-- Witness of C10 as amended: the invalid user body of the test suite. -/
theorem invalid_body_rejected_without_query_witness :
    (WriteRequest.createUser invalidUserBody).invalid sampleEnv = true ∧
      statusOf ((WriteRequest.createUser invalidUserBody).run sampleEnv
        (World.start sampleDb [])) = some 400 :=
  ⟨by decide!, (invalid_body_rejected_without_query sampleEnv
    (.createUser invalidUserBody) sampleDb [] (by decide!)).1⟩

/-! ## Scoped transactions, store errors, probes, routing and statement texts -/

theorem exec_commit_pending (env : Env) (c : Conn) (s s1 : Store) (rows : List Row)
    (h : exec env c .commit s = .ok (rows, s1)) (hc : c = .client) : s1.pending = none := by
  subst hc
  rcases s with ⟨d, _ | p⟩ <;> simp [exec] at h <;> obtain ⟨-, rfl⟩ := h <;> rfl

theorem exec_rollback_pending (env : Env) (s s1 : Store) (rows : List Row)
    (h : exec env .client .rollback s = .ok (rows, s1)) : s1.pending = none := by
  simp [exec] at h
  obtain ⟨-, rfl⟩ := h
  rfl

theorem exec_reread_store (env : Env) (id : String) (s s1 : Store) (rows : List Row)
    (h : exec env .pool (.selectTaskJoined id) s = .ok (rows, s1)) : s1 = s := by
  simp [exec] at h
  exact h.2.symm

theorem createTaskFinish_scoped (env : Env) (taskResult : List Row) (w : World)
    (hr : releases w.log = 0) (hb : w.log.any Event.isRollback = false) :
    TryScoped (createTaskFinish env taskResult w) := by
  unfold createTaskFinish
  apply query_bind_elim
  · intro e
    simpa [TryScoped, World.step, releases, Event.isRelease] using hr
  · intro rows s h
    have hp := exec_commit_pending env _ _ _ _ h rfl
    rcases taskResult with _ | ⟨_ | _ | t | _ | _ | _ | _, rest⟩ <;>
      simp only [taskIdOf]
    case cons.task =>
      rw [bind_run, pure_run]
      apply query_bind_elim
      · intro e
        simpa [TryScoped, World.step, releases, Event.isRelease] using hr
      · intro rows2 s2 h2
        have hs := exec_reread_store env _ _ _ _ h2
        subst hs
        simp [TryScoped, pure_run, World.step, releases, Event.isRelease, txOpen, txStep,
          Event.isBegin, Event.isCommit, Event.isRollback, closingMatches, endsInRollback, closeStep, hp, hb,
          List.foldl_append]
        simpa [releases, Event.isRelease] using hr
    all_goals
      rw [bind_run]
      simpa [TryScoped, Handler.throw, World.step, releases, Event.isRelease] using hr
theorem taskIdOf_bind_elim {β : Type} (rows : List Row) (f : String → Handler β) (w : World)
    (R : Except Exn β × World → Prop) (herr : ∀ e, R (.error e, w))
    (hok : ∀ id, R (f id w)) : R ((taskIdOf rows >>= f) w) := by
  rw [bind_run]
  rcases rows with _ | ⟨_ | _ | t | _ | _ | _ | _, rest⟩ <;>
    first
    | exact hok _
    | exact herr _

theorem countOf_bind_elim {β : Type} (rows : List Row) (f : Nat → Handler β) (w : World)
    (R : Except Exn β × World → Prop) (herr : ∀ e, R (.error e, w))
    (hok : ∀ n, R (f n w)) : R ((countOf rows >>= f) w) := by
  rw [bind_run]
  rcases rows with _ | ⟨_ | _ | t | _ | _ | _ | _, rest⟩ <;>
    first
    | exact hok _
    | exact herr _

theorem updateTaskFinish_scoped (env : Env) (id : String) (w : World)
    (hr : releases w.log = 0) (hb : w.log.any Event.isRollback = false) :
    TryScoped (updateTaskFinish env id w) := by
  unfold updateTaskFinish
  apply query_bind_elim
  · intro e
    simpa [TryScoped, World.step, releases, Event.isRelease] using hr
  · intro rows s h
    have hp := exec_commit_pending env _ _ _ _ h rfl
    apply query_bind_elim
    · intro e
      simpa [TryScoped, World.step, releases, Event.isRelease] using hr
    · intro rows2 s2 h2
      have hs := exec_reread_store env _ _ _ _ h2
      subst hs
      simp [TryScoped, pure_run, World.step, releases, Event.isRelease, txOpen, txStep,
        Event.isBegin, Event.isCommit, Event.isRollback, closingMatches, endsInRollback, closeStep, hp, hb,
        List.foldl_append]
      simpa [releases, Event.isRelease] using hr

theorem guard_rollback_scoped (env : Env) (resp : Response) (w : World)
    (hr : releases w.log = 0) (hs : 400 ≤ resp.status) :
    TryScoped ((query env .client .rollback >>= fun _ => (pure resp : Handler Response)) w) := by
  apply query_bind_elim
  · intro e
    simpa [TryScoped, World.step, releases, Event.isRelease] using hr
  · intro rows s h
    have hp := exec_rollback_pending env _ _ _ h
    have hs2 : ¬ resp.status < 400 := by omega
    simp [TryScoped, pure_run, World.step, releases, Event.isRelease, txOpen, txStep,
      Event.isBegin, Event.isCommit, Event.isRollback, closingMatches, endsInRollback, closeStep, hp, hs2,
      List.foldl_append]
    simpa [releases, Event.isRelease] using hr

theorem createTaskTry_scoped (env : Env) (body : TaskBody) (w : World)
    (hl : w.log = [Event.connect]) (hp : w.store.pending = none) :
    TryScoped (createTaskTry env body w) := by
  obtain ⟨⟨d, p⟩, faults, log⟩ := w
  simp only at hl hp
  subst hl hp
  unfold createTaskTry
  cases hv : taskSchema.validate env body with
  | error msg =>
    simp [TryScoped, pure_run, releases, Event.isRelease, txOpen, txStep, Event.isBegin,
      Event.isCommit, Event.isRollback, closingMatches, endsInRollback, closeStep]
  | ok value =>
    simp only []
    apply query_bind_elim
    · intro e; simp [TryScoped, World.step, releases, Event.isRelease]
    · intro rows s _
      apply query_bind_elim
      · intro e; simp [TryScoped, World.step, releases, Event.isRelease]
      · intro rows1 s1 _
        split
        · apply guard_rollback_scoped
          · simp [World.step, releases, Event.isRelease]
          · decide
        · apply query_bind_elim
          · intro e; simp [TryScoped, World.step, releases, Event.isRelease]
          · intro rows2 s2 _
            rcases value.category_ids with _ | _ | ⟨c, cs⟩
            · apply createTaskFinish_scoped <;>
                simp [World.step, releases, Event.isRelease, Event.isRollback]
            · apply createTaskFinish_scoped <;>
                simp [World.step, releases, Event.isRelease, Event.isRollback]
            · simp only []
              apply query_bind_elim
              · intro e; simp [TryScoped, World.step, releases, Event.isRelease]
              · intro rows3 s3 _
                split
                · apply guard_rollback_scoped
                  · simp [World.step, releases, Event.isRelease]
                  · decide
                · apply taskIdOf_bind_elim
                  · intro e; simp [TryScoped, World.step, releases, Event.isRelease]
                  · intro tid
                    apply query_bind_elim
                    · intro e; simp [TryScoped, World.step, releases, Event.isRelease]
                    · intro rows4 s4 _
                      apply createTaskFinish_scoped <;>
                        simp [World.step, releases, Event.isRelease, Event.isRollback]
theorem updateTaskTry_scoped (env : Env) (id : String) (body : TaskUpdateBody) (w : World)
    (hl : w.log = [Event.connect]) (hp : w.store.pending = none) :
    TryScoped (updateTaskTry env id body w) := by
  obtain ⟨⟨d, p⟩, faults, log⟩ := w
  simp only at hl hp
  subst hl hp
  unfold updateTaskTry
  cases hv : updateTaskSchema.validate env body with
  | error msg =>
    simp [TryScoped, pure_run, releases, Event.isRelease, txOpen, txStep, Event.isBegin,
      Event.isCommit, Event.isRollback, closingMatches, endsInRollback, closeStep]
  | ok value =>
    simp only []
    apply query_bind_elim
    · intro e; simp [TryScoped, World.step, releases, Event.isRelease]
    · intro rows s _
      apply query_bind_elim
      · intro e; simp [TryScoped, World.step, releases, Event.isRelease]
      · intro rows1 s1 _
        split
        · apply guard_rollback_scoped
          · simp [World.step, releases, Event.isRelease]
          · decide
        · apply query_bind_elim
          · intro e; simp [TryScoped, World.step, releases, Event.isRelease]
          · intro rows2 s2 _
            rcases value.category_ids with _ | ids
            · apply updateTaskFinish_scoped <;>
                simp [World.step, releases, Event.isRelease, Event.isRollback]
            · simp only []
              apply query_bind_elim
              · intro e; simp [TryScoped, World.step, releases, Event.isRelease]
              · intro rows3 s3 _
                split
                · apply query_bind_elim
                  · intro e; simp [TryScoped, World.step, releases, Event.isRelease]
                  · intro rows4 s4 _
                    split
                    · apply guard_rollback_scoped
                      · simp [World.step, releases, Event.isRelease]
                      · decide
                    · apply query_bind_elim
                      · intro e; simp [TryScoped, World.step, releases, Event.isRelease]
                      · intro rows5 s5 _
                        apply updateTaskFinish_scoped <;>
                          simp [World.step, releases, Event.isRelease, Event.isRollback]
                · apply updateTaskFinish_scoped <;>
                    simp [World.step, releases, Event.isRelease, Event.isRollback]

theorem deleteCategoryTry_scoped (env : Env) (id : String) (w : World)
    (hl : w.log = [Event.connect]) (hp : w.store.pending = none) :
    TryScoped (deleteCategoryTry env id w) := by
  obtain ⟨⟨d, p⟩, faults, log⟩ := w
  simp only at hl hp
  subst hl hp
  unfold deleteCategoryTry
  apply query_bind_elim
  · intro e; simp [TryScoped, World.step, releases, Event.isRelease]
  · intro rows s _
    apply query_bind_elim
    · intro e; simp [TryScoped, World.step, releases, Event.isRelease]
    · intro rows1 s1 _
      split
      · apply guard_rollback_scoped
        · simp [World.step, releases, Event.isRelease]
        · decide
      · apply query_bind_elim
        · intro e; simp [TryScoped, World.step, releases, Event.isRelease]
        · intro rows2 s2 _
          apply countOf_bind_elim
          · intro e; simp [TryScoped, World.step, releases, Event.isRelease]
          · intro n
            split
            · apply guard_rollback_scoped
              · simp [World.step, releases, Event.isRelease]
              · decide
            · apply query_bind_elim
              · intro e; simp [TryScoped, World.step, releases, Event.isRelease]
              · intro rows3 s3 _
                apply query_bind_elim
                · intro e; simp [TryScoped, World.step, releases, Event.isRelease]
                · intro rows4 s4 h4
                  have hp := exec_commit_pending env _ _ _ _ h4 rfl
                  simp [TryScoped, pure_run, World.step, releases, Event.isRelease, txOpen,
                    txStep, Event.isBegin, Event.isCommit, Event.isRollback, closingMatches, endsInRollback, closeStep, hp]

theorem releases_release (l : List Event) : releases (l ++ [Event.release]) = releases l + 1 := by
  simp [releases, List.countP_append, Event.isRelease]

theorem txOpen_release (l : List Event) : txOpen (l ++ [Event.release]) = txOpen l := by
  simp [txOpen, List.foldl_append, txStep, Event.isBegin, Event.isCommit, Event.isRollback]

theorem closingMatches_release (r : Option Response) (l : List Event) :
    closingMatches r (l ++ [Event.release]) = closingMatches r l := by
  unfold closingMatches
  simp [List.any_append, endsInRollback, closeStep, List.foldl_append, Event.isBegin,
    Event.isCommit, Event.isRollback]

theorem tryCatchRollback_scoped (env : Env) (failure : String) (body : Handler Response)
    (w : World) (h : TryScoped (body w)) : Scoped (tryCatchRollback env failure body w) := by
  unfold tryCatchRollback
  rcases hb : body w with ⟨e | resp, w1⟩
  · rw [hb] at h
    simp only [TryScoped] at h
    simp only []
    obtain ⟨r2, s, hq, hs⟩ := query_result env .client .rollback w1
    rw [hq]
    have hr : ∀ a ∈ w1.log, a.isRelease = false := by
      simpa [releases] using h
    cases r2 with
    | error e2 =>
      simp [Scoped, release, World.step, releases, Event.isRelease, txOpen, txStep,
        Event.isBegin, Event.isCommit, Event.isRollback, closingMatches, endsInRollback, closeStep, List.foldl_append,
        List.countP_append]
      simpa [releases, Event.isRelease] using h
    | ok rows =>
      have hp := exec_rollback_pending env _ _ _ hs
      simp [Scoped, release, World.step, releases, Event.isRelease, txOpen, txStep,
        Event.isBegin, Event.isCommit, Event.isRollback, closingMatches, endsInRollback, closeStep, List.foldl_append,
        List.countP_append, hp]
      simpa [releases, Event.isRelease] using h
  · rw [hb] at h
    simp only [TryScoped] at h
    obtain ⟨h1, h2, h3, h4⟩ := h
    simp only [Scoped, release]
    rw [releases_release, txOpen_release, closingMatches_release]
    exact ⟨by omega, by simp, h2, h4, Or.inr h3⟩

theorem withClient_scoped (env : Env) (failure : String) (body : Handler Response)
    (db : Database) (faults : List (Option Exn))
    (h : ∀ w : World, w.log = [Event.connect] → w.store.pending = none → TryScoped (body w)) :
    ((withClient env failure body (World.start db faults)).1 = none ∧
        (withClient env failure body (World.start db faults)).2.log = [Event.connect]) ∨
      Scoped (withClient env failure body (World.start db faults)) := by
  unfold withClient connect
  cases hn : (nextFault (World.start db faults).faults).1 with
  | some e => left; simp [World.start]
  | none =>
    right
    simp only []
    exact tryCatchRollback_scoped env failure body _ (h _ rfl rfl)
/-- C11 as amended. In each of the three transactional handlers, under every
schedule of store faults: either the acquisition of the client itself throws
(nothing else is logged and nothing is released), or the client is released
exactly once, as the last call of the request, and at that point every `BEGIN`
sent on it has a `COMMIT` or `ROLLBACK` sent after it. A success response comes
with a `COMMIT` and no `ROLLBACK`; an error response after a `BEGIN`, and a run
that sends no response, have a `ROLLBACK` as the last transaction statement
sent. Whenever a response is sent the store has no transaction open. -/
theorem transaction_scoped_release (env : Env) (req : TxRequest) (db : Database)
    (faults : List (Option Exn)) :
    ((req.run env (World.start db faults)).1 = none ∧
        (req.run env (World.start db faults)).2.log = [Event.connect]) ∨
      Scoped (req.run env (World.start db faults)) := by
  cases req with
  | createTask body =>
    exact withClient_scoped env _ _ db faults (fun w hl hp => createTaskTry_scoped env body w hl hp)
  | updateTask id body =>
    exact withClient_scoped env _ _ db faults
      (fun w hl hp => updateTaskTry_scoped env id body w hl hp)
  | deleteCategory id =>
    exact withClient_scoped env _ _ db faults
      (fun w hl hp => deleteCategoryTry_scoped env id w hl hp)

theorem thrownBy_eq {α : Type} (r : Except Exn α × World) (e : Exn)
    (h : thrownBy r = some e) : r = (.error e, r.2) := by
  rcases r with ⟨a | a, w⟩
  · simp [thrownBy] at h; subst h; rfl
  · simp [thrownBy] at h

/-- C12. For user create and update and category create and update with a valid
body: when the write statement throws a store error `e` (raised by the store
or injected), the response has status 409 if `e.code` is `23505` and status 500
otherwise, so 409 exactly for that code; in both cases the body is the object
with the key `error`, and nothing else is sent to the store. -/
theorem store_error_mapping (env : Env) (req : WriteRequest) (st : Stmt) (w : World) (e : Exn)
    (hst : req.statement env = some st)
    (herr : thrownBy (query env .pool st w) = some e) :
    statusOf (req.run env w) = some (if e.code = some "23505" then 409 else 500) ∧
      (statusOf (req.run env w) = some 409 ↔ e.code = some "23505") ∧
      (req.run env w).1.map (·.body.isError) = some true ∧
      (req.run env w).2 = (query env .pool st w).2 := by
  have hq := thrownBy_eq _ e herr
  have key : ∀ (conflict failure : String),
      (conflictOr500 conflict failure e).status = (if e.code = some "23505" then 409 else 500) ∧
      (conflictOr500 conflict failure e).body.isError = true := by
    intro conflict failure
    unfold conflictOr500
    by_cases hc : e.code = some "23505" <;> simp [hc, Payload.isError]
  have hiff : (some (if e.code = some "23505" then 409 else 500) = some 409 ↔
      e.code = some "23505") := by
    by_cases hc : e.code = some "23505" <;> simp [hc]
  cases req with
  | createUser body =>
    cases hv : userSchema.validate env body with
    | error msg => simp [WriteRequest.statement, hv] at hst
    | ok v =>
      simp only [WriteRequest.statement, hv, Option.some.injEq] at hst
      subst hst
      have hrun : createUser env body w =
          (some (conflictOr500 "Username or email already exists" "Failed to create user" e),
            (query env .pool (.insertUser v.username v.email (env.hash v.password)) w).2) := by
        simp only [createUser, createUserTry, hv, bind_run]
        rw [hq]
      simp only [WriteRequest.run, statusOf, hrun, Option.map_some', (key _ _).1, (key _ _).2]
      exact ⟨trivial, hiff, trivial, trivial⟩
  | updateUser id body =>
    cases hv : updateUserSchema.validate env body with
    | error msg => simp [WriteRequest.statement, hv] at hst
    | ok v =>
      simp only [WriteRequest.statement, hv, Option.some.injEq] at hst
      subst hst
      have hrun : updateUser env id body w =
          (some (conflictOr500 "Username or email already exists" "Failed to update user" e),
            (query env .pool (.updateUser (userSets v) id) w).2) := by
        simp only [updateUser, updateUserTry, hv, bind_run]
        rw [hq]
      simp only [WriteRequest.run, statusOf, hrun, Option.map_some', (key _ _).1, (key _ _).2]
      exact ⟨trivial, hiff, trivial, trivial⟩
  | createCategory body =>
    cases hv : categorySchema.validate body with
    | error msg => simp [WriteRequest.statement, hv] at hst
    | ok v =>
      simp only [WriteRequest.statement, hv, Option.some.injEq] at hst
      subst hst
      have hrun : createCategory env body w =
          (some (conflictOr500 "Category name already exists" "Failed to create category" e),
            (query env .pool (.insertCategory v.name v.color) w).2) := by
        simp only [createCategory, createCategoryTry, hv, bind_run]
        rw [hq]
      simp only [WriteRequest.run, statusOf, hrun, Option.map_some', (key _ _).1, (key _ _).2]
      exact ⟨trivial, hiff, trivial, trivial⟩
  | updateCategory id body =>
    cases hv : categorySchema.validate body with
    | error msg => simp [WriteRequest.statement, hv] at hst
    | ok v =>
      simp only [WriteRequest.statement, hv, Option.some.injEq] at hst
      subst hst
      have hrun : updateCategory env id body w =
          (some (conflictOr500 "Category name already exists" "Failed to update category" e),
            (query env .pool (.updateCategory v.name v.color id) w).2) := by
        simp only [updateCategory, updateCategoryTry, hv, bind_run]
        rw [hq]
      simp only [WriteRequest.run, statusOf, hrun, Option.map_some', (key _ _).1, (key _ _).2]
      exact ⟨trivial, hiff, trivial, trivial⟩
  | createTask body => simp [WriteRequest.statement] at hst
  | updateTask id body => simp [WriteRequest.statement] at hst

set_option maxRecDepth 100000 in
/-- Witness of C12: a duplicate category name is answered 409, an injected
error with another code 500. -/
theorem store_error_mapping_witness :
    statusOf ((WriteRequest.createCategory duplicateCategoryBody).run sampleEnv
        (World.start sampleDb [])) = some 409 ∧
      statusOf ((WriteRequest.createCategory duplicateCategoryBody).run sampleEnv
        (World.start sampleDb [some { code := some "53300", message := "too many connections" }]))
        = some 500 :=
  ⟨(store_error_mapping sampleEnv (.createCategory duplicateCategoryBody)
      (.insertCategory "Test Category" "#123456")
      (World.start sampleDb []) uniqueViolation (by rfl) (by decide!)).1,
   (store_error_mapping sampleEnv (.createCategory duplicateCategoryBody)
      (.insertCategory "Test Category" "#123456")
      (World.start sampleDb [some { code := some "53300", message := "too many connections" }])
      { code := some "53300", message := "too many connections" } (by rfl) (by decide!)).1⟩
theorem tableCount_le (publicTables : List String) (hnd : publicTables.Nodup) :
    tableCount publicTables ≤ 3 := by
  have h1 : (publicTables.filter fun t => requiredTables.contains t).Nodup := hnd.filter _
  have h2 : (publicTables.filter fun t => requiredTables.contains t) ⊆ requiredTables := by
    intro x hx
    have := (List.mem_filter.1 hx).2
    simpa using this
  exact (List.subperm_of_subset h1 h2).length_le

theorem tableCount_eq_three (publicTables : List String) (hnd : publicTables.Nodup) :
    tableCount publicTables = 3 ↔ ∀ t ∈ requiredTables, t ∈ publicTables := by
  have h1 : (publicTables.filter fun t => requiredTables.contains t).Nodup := hnd.filter _
  have h2 : (publicTables.filter fun t => requiredTables.contains t) ⊆ requiredTables := by
    intro x hx
    have := (List.mem_filter.1 hx).2
    simpa using this
  constructor
  · intro h t ht
    have hperm := (List.subperm_of_subset h1 h2).perm_of_length_le
      (by simpa [tableCount] using (le_of_eq h.symm : 3 ≤ tableCount publicTables))
    have := hperm.symm.subset ht
    exact (List.mem_filter.1 this).1
  · intro h
    have h3 : requiredTables ⊆ (publicTables.filter fun t => requiredTables.contains t) := by
      intro x hx
      exact List.mem_filter.2 ⟨h x hx, by simpa using hx⟩
    have hle := (List.subperm_of_subset (by decide : requiredTables.Nodup) h3).length_le
    have hge := tableCount_le publicTables hnd
    have : requiredTables.length = 3 := rfl
    unfold tableCount at hge ⊢
    omega

/-- C13 as amended. When the probe's query succeeds (table names of a schema
being distinct), `GET /health/ready` answers 200 with status `ready` exactly
when the count of required relations is 3, which is exactly when `users`,
`tasks` and `categories` all exist; otherwise it answers 503 `not ready` with
`tables_found` equal to the count, which is below 3. When the query throws, it
answers 503 `not ready` with the error message and without `tables_found`. -/
theorem ready_characterised (publicTables : List String) (e : Exn)
    (hnd : publicTables.Nodup) :
    ready (.ok publicTables) =
        (if tableCount publicTables = 3 then
          { status := 200
            body := { status := "ready", database := some "ready", tables_found := some 3 } }
        else
          { status := 503
            body := { status := "not ready", reason := some "Database tables not ready"
                      tables_found := some (tableCount publicTables) } }) ∧
      (tableCount publicTables = 3 ↔ ∀ t ∈ requiredTables, t ∈ publicTables) ∧
      tableCount publicTables ≤ 3 ∧
      ready (.error e) =
        { status := 503, body := { status := "not ready", error := some e.message } } := by
  have hle := tableCount_le publicTables hnd
  refine ⟨?_, tableCount_eq_three publicTables hnd, hle, rfl⟩
  unfold ready
  by_cases h : tableCount publicTables = 3
  · simp [h]
  · have hlt : tableCount publicTables < 3 := by omega
    simp [h, hlt]

/-- Witness of C13 as amended: with `categories` missing the probe answers 503
and reports two relations. -/
theorem ready_characterised_witness :
    ["users", "tasks"].Nodup ∧
      ready (.ok ["users", "tasks"]) =
        { status := 503
          body := { status := "not ready", reason := some "Database tables not ready"
                    tables_found := some 2 } } :=
  ⟨by decide, by
    have h := (ready_characterised ["users", "tasks"] {} (by decide)).1
    rw [h]
    decide⟩

/-- Counterexample to C13. When the store query throws, the probe answers 503
`not ready` and the body has no `tables_found`. -/
theorem ready_store_error_reports_no_count :
    (ready (.error { message := "connection refused" })).status = 503 ∧
      (ready (.error { message := "connection refused" })).body.status = "not ready" ∧
      (ready (.error { message := "connection refused" })).body.tables_found = none := by
  decide

/-- C14 at the failing input. The tasks router matches `GET /stats` against
`/:id`, registered before `/stats`: the request goes to the get-by-id handler
with `id = stats`, which answers 404 `Task not found` on the sample store. -/
theorem stats_path_dispatched_to_getById :
    dispatch tasksRouter .get ["stats"] = some (.getById, [("id", "stats")]) ∧
      (getTask sampleEnv "stats" (World.start sampleDb [])).1 =
        some { status := 404, body := .error "Task not found" } := by
  decide!

set_option maxRecDepth 100000 in
/-- C15 at the failing input. With a `user_id` supplied, the statement counting
the tasks of the last 7 days contains the keyword `WHERE` twice and no `AND`;
the two grouped statements contain it once, and the parameter list is
`[user_id]`. -/
theorem stats_recent_query_two_where :
    occurrences "WHERE" (buildStats (some sampleUserId)).recent = 2 ∧
      ¬ occursIn "AND" (buildStats (some sampleUserId)).recent ∧
      occurrences "WHERE" (buildStats (some sampleUserId)).byStatus = 1 ∧
      occurrences "WHERE" (buildStats (some sampleUserId)).byPriority = 1 ∧
      (buildStats (some sampleUserId)).params = [Val.str sampleUserId] := by
  decide!

set_option maxRecDepth 100000 in
/-- C16 at the failing input. With the user `test-user-id` stored, the body
posted by the test `should create a new task` is answered 400
`"user_id" must be a valid GUID`; nothing is sent to the store. -/
theorem createTask_test_user_rejected :
    (testDb.users.any fun u => u.id == "test-user-id") = true ∧
      createTask sampleEnv testTaskBody (World.start testDb []) =
        (some { status := 400, body := .error "\"user_id\" must be a valid GUID" },
          { store := { committed := testDb, pending := none }, faults := [],
            log := [Event.connect, Event.release] }) := by
  decide!

set_option maxRecDepth 100000 in
/-- C17 at the failing input. For one category id, the text before the three
`replace` calls encloses each id in one pair of quotes; the text sent after
`VALUES` encloses each id in two pairs, the store's parser rejects it, and
`PUT /api/tasks/:id` with that category list answers 500. -/
theorem valuesText_doubles_quotes :
    valuesText sampleTaskId [usedCategoryId] =
        "(" ++ q1 ++ q1 ++ sampleTaskId ++ q1 ++ q1 ++ ", " ++ q1 ++ q1 ++ usedCategoryId ++
          q1 ++ q1 ++ ")" ∧
      categoryValues sampleTaskId [usedCategoryId] =
        "(" ++ q1 ++ sampleTaskId ++ q1 ++ ", " ++ q1 ++ usedCategoryId ++ q1 ++ ")" ∧
      valuesText sampleTaskId [usedCategoryId] ≠ categoryValues sampleTaskId [usedCategoryId] ∧
      parseValues (valuesText sampleTaskId [usedCategoryId]) = none ∧
      statusOf (updateTask sampleEnv sampleTaskId { category_ids := some [usedCategoryId] }
        (World.start sampleDb [])) = some 500 := by
  decide!
theorem buildTaskList_params_length (q : TaskListQuery) :
    (buildTaskList q).params.length =
        (buildTaskList (shapeOf (truthy q.status) (truthy q.priority) (truthy q.user_id)
          (truthy q.category_id) (truthy q.search))).params.length ∧
      (buildTaskList q).countParams.length =
        (buildTaskList (shapeOf (truthy q.status) (truthy q.priority) (truthy q.user_id)
          (truthy q.category_id) (truthy q.search))).countParams.length := by
  simp only [buildTaskList, taskListFilters_params, sliceDropLast2, filterParams, shapeOf]
  cases truthy q.status <;> cases truthy q.priority <;> cases truthy q.user_id <;>
    cases truthy q.category_id <;> cases truthy q.search <;> simp [truthy]

set_option maxRecDepth 100000 in
theorem shape_placeholders : ∀ a b c d e : Bool,
    placeholders (buildTaskList (shapeOf a b c d e)).query =
        List.range' 1 (buildTaskList (shapeOf a b c d e)).params.length ∧
      placeholders (buildTaskList (shapeOf a b c d e)).countQuery =
        List.range' 1 (buildTaskList (shapeOf a b c d e)).countParams.length ∧
      (buildTaskList (shapeOf a b c d e)).countParams.length + 2 =
        (buildTaskList (shapeOf a b c d e)).params.length := by
  decide!

/-- C18. For every combination of filters, the placeholders of the main query,
read left to right, are `$1 .. $n` with `n` the length of its parameter list,
and those of the count query are `$1 .. $(n-2)`, the length of the count
parameter list being `n - 2`. -/
theorem taskList_placeholders_consecutive (q : TaskListQuery) :
    placeholders (buildTaskList q).query = List.range' 1 (buildTaskList q).params.length ∧
      placeholders (buildTaskList q).countQuery =
        List.range' 1 (buildTaskList q).countParams.length ∧
      (buildTaskList q).countParams.length + 2 = (buildTaskList q).params.length := by
  have ht := buildTaskList_text q
  have hl := buildTaskList_params_length q
  have hs := shape_placeholders (truthy q.status) (truthy q.priority) (truthy q.user_id)
    (truthy q.category_id) (truthy q.search)
  rw [ht.1, ht.2, hl.1, hl.2]
  exact hs

/-- C19. For a body of `PUT /api/categories/:id` with a valid `name` and no
`color`, the schema supplies `#007bff`, and the one statement sent, under every
schedule of faults, is the `UPDATE` with parameters `name`, `#007bff`, `id`.
Run without faults (the new name not colliding with another category), the
handler answers 200 for a stored category and 404 otherwise, and every row of
that id is stored with the new name and colour `#007bff`, whatever its colour
was. -/
theorem updateCategory_writes_default_color (env : Env) (db : Database) (id name : String)
    (faults : List (Option Exn))
    (hname : name ≠ "") (hlen : jsLength name ≤ 50)
    (hunique : categoriesUnique (db.categories.map (recolor name "#007bff" id)) = true) :
    categorySchema.validate { name := some name, color := none } =
        .ok { name := name, color := "#007bff" } ∧
      (updateCategory env id { name := some name, color := none }
        (World.start db faults)).2.log =
        [Event.query .pool (.updateCategory name "#007bff" id)] ∧
      statusOf (updateCategory env id { name := some name, color := none }
        (World.start db [])) = some (if categoryExists db id then 200 else 404) ∧
      (updateCategory env id { name := some name, color := none }
        (World.start db [])).2.store.committed =
        { db with categories := db.categories.map (recolor name "#007bff" id) } ∧
      ((updateCategory env id { name := some name, color := none }
        (World.start db [])).2.store.committed.categories.filter (·.id == id)).all
          (fun k => k.color == "#007bff" && k.name == name) = true := by
  have hv : categorySchema.validate { name := some name, color := none } =
      .ok { name := name, color := "#007bff" } := by
    have h50 : ¬ jsLength name > 50 := by omega
    simp [categorySchema.validate, hname, h50, bind, Except.bind, pure, Except.pure]
  have hrec : recolor name "#007bff" id =
      fun k => if k.id == id then { k with name := name, color := "#007bff" } else k := rfl
  have hid : ∀ k : Category, (recolor name "#007bff" id k).id = k.id := by
    intro k
    unfold recolor
    split <;> rfl
  have hfilter : (db.categories.map (recolor name "#007bff" id)).filter (·.id == id) =
      (db.categories.filter (·.id == id)).map (recolor name "#007bff" id) := by
    rw [List.filter_map]
    congr 1
    apply List.filter_congr
    intro k _
    simp [hid]
  have hrun : updateCategory env id { name := some name, color := none } (World.start db []) =
      (some (if categoryExists db id then
          { status := 200
            body := .row (((db.categories.filter (·.id == id)).map
              (recolor name "#007bff" id)).map Row.category).head? }
        else { status := 404, body := .error "Category not found" }),
        { store :=
            { committed := { db with categories := db.categories.map (recolor name "#007bff" id) },
              pending := none },
          faults := [],
          log := [Event.query .pool (.updateCategory name "#007bff" id)] }) := by
    rw [hrec] at hunique hfilter
    simp only [beq_iff_eq] at hunique hfilter
    by_cases hex : db.categories.filter (·.id == id) = []
    · have hE : categoryExists db id = false := by
        simpa [categoryExists, List.filter_eq_nil_iff, List.any_eq_false] using hex
      simp [updateCategory, updateCategoryTry, hv, bind_run, pure_run, query, exec, nextFault,
        World.start, Store.view, Store.write, hunique, hfilter, hex, hE, hrec]
    · have hE : categoryExists db id = true := by
        simpa [categoryExists, List.filter_eq_nil_iff, List.any_eq_true] using hex
      simp [updateCategory, updateCategoryTry, hv, bind_run, pure_run, query, exec, nextFault,
        World.start, Store.view, Store.write, hunique, hfilter, hex, hE, hrec]
  refine ⟨hv, ?_, ?_, ?_, ?_⟩
  · simp only [updateCategory, updateCategoryTry, hv, bind_run]
    obtain ⟨r, s, hq, -⟩ := query_result env .pool (.updateCategory name "#007bff" id)
      (World.start db faults)
    rw [hq]
    cases r with
    | error e => simp [World.step, World.start]
    | ok rows =>
      by_cases hz : rows.length = 0 <;> simp [hz, pure_run, World.step, World.start]
  · rw [hrun]
    by_cases hE : categoryExists db id = true <;> simp [statusOf, hE]
  · rw [hrun]
  · rw [hrun]
    simp only [hfilter, List.all_map, List.all_eq_true]
    intro k hk
    have hkid : (k.id == id) = true := (List.mem_filter.1 hk).2
    simp [recolor, hkid]

/-- Witness of C19: the category of `sampleDb` stored with colour `#ff0000` is
renamed by a body without `color`, and is stored with `#007bff` afterwards. -/
theorem updateCategory_writes_default_color_witness :
    categoryExists sampleDb usedCategoryId = true ∧
      ((updateCategory sampleEnv usedCategoryId { name := some "Renamed", color := none }
        (World.start sampleDb [])).2.store.committed.categories.filter
          (·.id == usedCategoryId)).all
          (fun k => k.color == "#007bff" && k.name == "Renamed") = true :=
  ⟨by decide,
    (updateCategory_writes_default_color sampleEnv sampleDb usedCategoryId "Renamed" []
      (by decide) (by decide) (by decide)).2.2.2.2⟩

set_option maxRecDepth 100000 in
/-- Counterexample to C11. When the `INSERT` of task create throws and the
`ROLLBACK` of the `catch` block throws too, no response is sent and the client
is released, once, with the transaction still open in the store. And when the
re-read after `COMMIT` throws, the request fails with 500 although its `BEGIN`
was closed by a `COMMIT`. -/
theorem release_with_transaction_open :
    (createTask sampleEnv sampleTaskBody
        (World.start sampleDb [none, none, none, some {}, some {}])).1 = none ∧
      releases (createTask sampleEnv sampleTaskBody
        (World.start sampleDb [none, none, none, some {}, some {}])).2.log = 1 ∧
      (createTask sampleEnv sampleTaskBody
        (World.start sampleDb [none, none, none, some {}, some {}])).2.store.pending ≠ none ∧
      statusOf (createTask sampleEnv sampleTaskBody
        (World.start sampleDb [none, none, none, none, none, some {}])) = some 500 ∧
      (createTask sampleEnv sampleTaskBody
        (World.start sampleDb [none, none, none, none, none, some {}])).2.log.any
          Event.isCommit = true := by
  decide!

end Microservice
